import Mathlib

/-!
Verification of the android-lab backend's reservation admission / lifecycle
engine and device/gateway fleet state machine.

Conventions of the embedding:
* timestamps (`datetime` values) are modelled as integer minutes since an
  arbitrary epoch; `timedelta(minutes = m)` becomes integer addition of `m`;
* SQL result sets are modelled as Lean lists in table order, and
  `result.scalars().first()` becomes `List.find?`;
* in-place mutation of the first row returned by a query becomes an
  update of the first matching list element (`update_first` below);
* nullable columns become `Option`; fallible endpoints return `Except`.
-/

namespace AndroidLab

/-- Device status enumeration of `backend/models/target.py`. -/
inductive DeviceStatus
  | AVAILABLE
  | RESERVED
  | OFFLINE
  | MAINTENANCE
  | UNHEALTHY
deriving DecidableEq, Repr

/-- Reservation status enumeration of `backend/models/reservation.py`. -/
inductive ReservationStatus
  | PENDING
  | ACTIVE
  | COMPLETED
  | CANCELLED
  | EXPIRED
deriving DecidableEq, Repr

/-- Reservation priority enumeration of `backend/models/reservation.py`. -/
inductive ReservationPriority
  | LOW
  | NORMAL
  | HIGH
  | CRITICAL
deriving DecidableEq, Repr

/-- Replace the first element satisfying `p` by its image under `f`:
the embedding of fetching the first row of a query and mutating it. -/
def update_first (p : α → Bool) (f : α → α) : List α → List α
  | [] => []
  | x :: xs => if p x then f x :: xs else x :: update_first p f xs

/-- The three-clause overlap test of `create_reservation`
(`backend/routers/reservations.py`), applied to an existing reservation
`[res_start, res_end)` and a new request `[new_start, new_end)`:
existing starts at-or-before the new start and ends after it, or existing
starts before the new end and ends at-or-after it, or existing lies fully
inside the new interval. -/
def overlaps_three (res_start res_end new_start new_end : Int) : Bool :=
  (decide (res_start ≤ new_start) && decide (res_end > new_start)) ||
  (decide (res_start < new_end) && decide (res_end ≥ new_end)) ||
  (decide (res_start ≥ new_start) && decide (res_end ≤ new_end))

/-- C1: for non-empty half-open intervals, the three-clause overlap test used
by reservation creation and by the availability check returns `true` exactly
when the single inequality `s1 < e2 ∧ s2 < e1` holds, where `[s1, e1)` is the
existing reservation's window and `[s2, e2)` the new one. -/
theorem overlap_three_clause_iff_single_inequality
    (s1 e1 s2 e2 : Int) (h1 : e1 > s1) (h2 : e2 > s2) :
    overlaps_three s1 e1 s2 e2 = true ↔ (s1 < e2 ∧ s2 < e1) := by
  simp only [overlaps_three, Bool.or_eq_true, Bool.and_eq_true, decide_eq_true_eq]
  omega

/-- Witness for C1 at the concrete intervals `[0,2)` and `[1,3)`. -/
theorem overlap_three_clause_iff_single_inequality_witness :
    ((2:Int) > 0 ∧ (3:Int) > 1) ∧
      (overlaps_three 0 2 1 3 = true ↔ ((0:Int) < 3 ∧ (1:Int) < 2)) :=
  ⟨by decide, overlap_three_clause_iff_single_inequality 0 2 1 3 (by decide) (by decide)⟩

/-! ## Data model

Rows of `target_devices`, `reservations`, and `reservation_policies`
(`backend/models/`), restricted to the columns the verified operations read
or write.  The remaining hardware-descriptor columns of `target_devices`
(endpoints, cpu/gpu info, tags, ...) are copied by exactly the same
assignments as `ip_address`/`android_version` below and are represented by
those two. -/

/-- A `target_devices` row (`backend/models/target.py`). -/
structure TargetDevice where
  id : Nat
  name : String
  gateway_id : String
  serial_number : Option String
  ip_address : Option String
  android_version : Option String
  adb_status : Bool
  serial_status : Bool
  health_check_score : Option Int
  status : DeviceStatus
  last_heartbeat : Option Int
  is_active : Bool
deriving DecidableEq, Repr

/-- A `reservations` row (`backend/models/reservation.py`). -/
structure Reservation where
  id : Nat
  user_id : Nat
  target_id : Nat
  policy_id : Option Nat
  start_time : Int
  end_time : Int
  status : ReservationStatus
  priority : ReservationPriority
  is_admin_override : Bool
  last_accessed_at : Option Int
deriving DecidableEq, Repr

/-- A `reservation_policies` row (`backend/models/reservation_policy.py`),
restricted to the limits the availability check and the expiry sweep read. -/
structure ReservationPolicy where
  id : Nat
  max_duration_minutes : Int
  cooldown_minutes : Int
  max_reservations_per_day : Nat
  priority_level : Int
  auto_expire_enabled : Bool
  auto_expire_minutes : Int
deriving DecidableEq, Repr

/-- The store as the reservation endpoints see it. -/
structure LabState where
  targets : List TargetDevice
  reservations : List Reservation
deriving DecidableEq, Repr

/-- Body of a `ReservationCreate` request (`backend/schemas/reservation.py`);
`create_reservation` reads only these three fields (the schema's
`priority`/`policy_id`/recurrence fields are never copied into the row). -/
structure ReservationCreate where
  target_id : Nat
  start_time : Int
  end_time : Int
deriving DecidableEq, Repr

/-- Body of a `ReservationUpdate` request; the endpoint applies only
`start_time`, `end_time` and `status`. -/
structure ReservationUpdate where
  start_time : Option Int
  end_time : Option Int
  status : Option ReservationStatus
deriving DecidableEq, Repr

/-- Error outcomes (HTTPException paths) of the reservation endpoints. -/
inductive ResError
  | targetNotFound
  | overlappingReservation
  | reservationNotFound
deriving DecidableEq, Repr

/-- The filter of the overlap query: same device, `pending`/`active` status,
and the three-clause window overlap. -/
def reservation_conflicts_with (r : Reservation) (target_id : Nat) (s e : Int) : Bool :=
  r.target_id == target_id &&
  (r.status == .PENDING || r.status == .ACTIVE) &&
  overlaps_three r.start_time r.end_time s e

/-- Ownership filter shared by the read/update/delete endpoints: admins
(`acting_user = none`) see every reservation, other users only their own. -/
def owned_by (reservation_id : Nat) (acting_user : Option Nat) (r : Reservation) : Bool :=
  r.id == reservation_id &&
  (match acting_user with | some u => r.user_id == u | none => true)

/-- Set the status of the first device with the given id, the embedding of
the `target = ...first(); target.status = ...` pattern (a missing device is
a no-op, matching the `if target:` guard). -/
def set_target_status (targets : List TargetDevice) (tid : Nat) (st : DeviceStatus) :
    List TargetDevice :=
  update_first (fun t => t.id == tid) (fun t => { t with status := st }) targets

/-- POST `/reservations/` (`create_reservation` in
`backend/routers/reservations.py`): look up the target, reject on a
pending/active overlap, insert the new row as `pending`, and if the window
already contains `now` make it `active` and mark the device `reserved`. -/
def create_reservation (s : LabState) (current_user_id : Nat) (req : ReservationCreate)
    (now : Int) (new_id : Nat) : Except ResError (LabState × Reservation) :=
  match s.targets.find? (fun t => t.id == req.target_id) with
  | none => .error .targetNotFound
  | some _ =>
    match s.reservations.find?
        (fun r => reservation_conflicts_with r req.target_id req.start_time req.end_time) with
    | some _ => .error .overlappingReservation
    | none =>
      let base : Reservation :=
        { id := new_id, user_id := current_user_id, target_id := req.target_id,
          policy_id := none, start_time := req.start_time, end_time := req.end_time,
          status := .PENDING, priority := .NORMAL, is_admin_override := false,
          last_accessed_at := none }
      if req.start_time ≤ now ∧ req.end_time > now then
        .ok ({ targets := set_target_status s.targets req.target_id .RESERVED,
               reservations := s.reservations ++ [{ base with status := .ACTIVE }] },
             { base with status := .ACTIVE })
      else
        .ok ({ s with reservations := s.reservations ++ [base] }, base)

/-- PUT `/reservations/{id}` (`update_reservation`): find the reservation,
re-run the overlap test against all other pending/active reservations when a
time bound changes, apply the field updates, and perform the device status
side effects of transitions into and out of `active`. -/
def update_reservation (s : LabState) (reservation_id : Nat) (acting_user : Option Nat)
    (upd : ReservationUpdate) : Except ResError (LabState × Reservation) :=
  match s.reservations.find? (owned_by reservation_id acting_user) with
  | none => .error .reservationNotFound
  | some r =>
    let new_start := upd.start_time.getD r.start_time
    let new_end := upd.end_time.getD r.end_time
    if (upd.start_time.isSome || upd.end_time.isSome) &&
        (s.reservations.find? (fun r2 =>
          r2.id != reservation_id &&
          reservation_conflicts_with r2 r.target_id new_start new_end)).isSome then
      .error .overlappingReservation
    else
      let r1 := match upd.start_time with | some v => { r with start_time := v } | none => r
      let r2 := match upd.end_time with | some v => { r1 with end_time := v } | none => r1
      match upd.status with
      | none =>
        .ok ({ s with
               reservations :=
                 update_first (owned_by reservation_id acting_user) (fun _ => r2)
                   s.reservations }, r2)
      | some st =>
        let old_status := r2.status
        let r3 := { r2 with status := st }
        let targets1 :=
          if old_status ≠ .ACTIVE ∧ st = .ACTIVE then
            set_target_status s.targets r.target_id .RESERVED
          else s.targets
        let targets2 :=
          if old_status = .ACTIVE ∧ st ≠ .ACTIVE then
            set_target_status targets1 r.target_id .AVAILABLE
          else targets1
        .ok ({ targets := targets2,
               reservations :=
                 update_first (owned_by reservation_id acting_user) (fun _ => r3)
                   s.reservations }, r3)

/-- Remove the first element satisfying `p` (the embedding of
`db.delete(row)` on the first row of a query). -/
def remove_first (p : α → Bool) : List α → List α
  | [] => []
  | x :: xs => if p x then xs else x :: remove_first p xs

/-- DELETE `/reservations/{id}` (`delete_reservation`): find the
reservation, release the device to `available` when the reservation was
`active`, and remove the row. -/
def delete_reservation (s : LabState) (reservation_id : Nat) (acting_user : Option Nat) :
    Except ResError (LabState × Reservation) :=
  match s.reservations.find? (owned_by reservation_id acting_user) with
  | none => .error .reservationNotFound
  | some r =>
    let targets1 :=
      if r.status = .ACTIVE then set_target_status s.targets r.target_id .AVAILABLE
      else s.targets
    .ok ({ targets := targets1,
           reservations := remove_first (owned_by reservation_id acting_user) s.reservations },
         r)

/-! ## Lemmas about `update_first` / `set_target_status` -/

theorem find?_set_target_status (targets : List TargetDevice) (tid : Nat) (st : DeviceStatus)
    (t : TargetDevice) (h : targets.find? (fun d => d.id == tid) = some t) :
    (set_target_status targets tid st).find? (fun d => d.id == tid) =
      some { t with status := st } := by
  induction targets with
  | nil => simp at h
  | cons x xs ih =>
    simp only [set_target_status, update_first] at *
    by_cases hx : (x.id == tid) = true
    · simp only [List.find?, hx] at h
      injection h with h; subst h
      simp [List.find?, if_pos hx, hx]
    · have hx' : (x.id == tid) = false := by simpa using hx
      simp only [List.find?, hx'] at h
      simp only [if_neg hx, List.find?, hx']
      exact ih h

/-! ## C2: scope of the checks run by reservation creation -/

/-- C2 counterexample: a creation request on a device whose status is
`offline`, with a duration of 1100 minutes (far beyond every duration cap),
is accepted and inserted as `pending`: `create_reservation` runs no device
status, duration, quota or cooldown check. -/
theorem create_reservation_skips_admission_counterexample :
    ((⟨1, "d1", "g1", none, none, none, false, false, none, .OFFLINE, none, true⟩ :
        TargetDevice).status = .OFFLINE ∧ ((1200 : Int) - 100) > 240) ∧
    create_reservation
        ⟨[⟨1, "d1", "g1", none, none, none, false, false, none, .OFFLINE, none, true⟩], []⟩
        7 ⟨1, 100, 1200⟩ 0 1 =
      .ok (⟨[⟨1, "d1", "g1", none, none, none, false, false, none, .OFFLINE, none, true⟩],
            [⟨1, 7, 1, none, 100, 1200, .PENDING, .NORMAL, false, none⟩]⟩,
           ⟨1, 7, 1, none, 100, 1200, .PENDING, .NORMAL, false, none⟩) :=
  ⟨⟨rfl, by decide⟩, rfl⟩

/-- C2 amended: `create_reservation` checks only that the target exists and
that no `pending`/`active` reservation on the device overlaps the requested
window; device status, duration cap, daily quota and cooldown are not
consulted.  An accepted request is appended to the reservation table, as
`pending` unless the window already contains `now`, in which case it is
inserted as `active`. -/
theorem create_reservation_checks_only_existence_and_overlap
    (s : LabState) (uid : Nat) (req : ReservationCreate) (now : Int) (nid : Nat) :
    ((∃ out, create_reservation s uid req now nid = .ok out) ↔
      ((s.targets.find? (fun t => t.id == req.target_id)).isSome ∧
        s.reservations.find? (fun r =>
          reservation_conflicts_with r req.target_id req.start_time req.end_time) = none)) ∧
    (∀ s' r, create_reservation s uid req now nid = .ok (s', r) →
      s'.reservations = s.reservations ++ [r] ∧
      r.status = (if req.start_time ≤ now ∧ req.end_time > now
        then ReservationStatus.ACTIVE else .PENDING)) := by
  constructor
  · cases ht : s.targets.find? (fun t => t.id == req.target_id) with
    | none => simp [create_reservation, ht]
    | some t =>
      cases hc : s.reservations.find? (fun r =>
          reservation_conflicts_with r req.target_id req.start_time req.end_time) with
      | some c => simp [create_reservation, ht, hc]
      | none =>
        simp only [create_reservation, ht, hc, Option.isSome_some, true_and]
        constructor
        · intro _; trivial
        · intro _
          split <;> exact ⟨_, rfl⟩
  · intro s' r hok
    cases ht : s.targets.find? (fun t => t.id == req.target_id) with
    | none => simp [create_reservation, ht] at hok
    | some t =>
      cases hc : s.reservations.find? (fun r =>
          reservation_conflicts_with r req.target_id req.start_time req.end_time) with
      | some c => simp [create_reservation, ht, hc] at hok
      | none =>
        simp only [create_reservation, ht, hc] at hok
        split at hok <;>
          · rename_i hnow
            injection hok with hok
            injection hok with hs hr
            subst hs; subst hr
            simp [hnow]

/-- Witness for C2's amended theorem: the accepted request of the
counterexample is appended as `pending`. -/
theorem create_reservation_checks_only_existence_and_overlap_witness :
    (⟨[⟨1, "d1", "g1", none, none, none, false, false, none, .OFFLINE, none, true⟩],
      [⟨1, 7, 1, none, 100, 1200, .PENDING, .NORMAL, false, none⟩]⟩ :
        LabState).reservations =
      ([] : List Reservation) ++ [⟨1, 7, 1, none, 100, 1200, .PENDING, .NORMAL, false, none⟩] ∧
    (⟨1, 7, 1, none, 100, 1200, .PENDING, .NORMAL, false, none⟩ : Reservation).status =
      (if (100 : Int) ≤ 0 ∧ (1200 : Int) > 0 then ReservationStatus.ACTIVE else .PENDING) :=
  (create_reservation_checks_only_existence_and_overlap
      ⟨[⟨1, "d1", "g1", none, none, none, false, false, none, .OFFLINE, none, true⟩], []⟩
      7 ⟨1, 100, 1200⟩ 0 1).2 _ _ rfl

/-! ## C3: device release on transitions out of `active` -/

/-- C3 counterexample: a device under `maintenance` whose active reservation
is updated to `completed` is set to `available` — the maintenance status is
not preserved. -/
theorem out_of_active_overwrites_maintenance_counterexample :
    update_reservation
        ⟨[⟨1, "d1", "g1", none, none, none, false, false, none, .MAINTENANCE, none, true⟩],
         [⟨5, 2, 1, none, 0, 10, .ACTIVE, .NORMAL, false, none⟩]⟩
        5 none ⟨none, none, some .COMPLETED⟩ =
      .ok (⟨[⟨1, "d1", "g1", none, none, none, false, false, none, .AVAILABLE, none, true⟩],
            [⟨5, 2, 1, none, 0, 10, .COMPLETED, .NORMAL, false, none⟩]⟩,
           ⟨5, 2, 1, none, 0, 10, .COMPLETED, .NORMAL, false, none⟩) := by
  rfl

/-- C3 amended: every transition of a reservation out of `active` (an
explicit status update away from `active`, or deletion of an active
reservation) sets the device's status to `available` unconditionally, in the
same logical step — even when the device is independently under
`maintenance`. -/
theorem out_of_active_releases_device_unconditionally :
    (∀ (s : LabState) (rid : Nat) (au : Option Nat) (upd : ReservationUpdate)
        (r : Reservation) (st : ReservationStatus) (s' : LabState) (r' : Reservation)
        (t : TargetDevice),
      s.reservations.find? (owned_by rid au) = some r →
      r.status = .ACTIVE → upd.status = some st → st ≠ .ACTIVE →
      update_reservation s rid au upd = .ok (s', r') →
      s.targets.find? (fun d => d.id == r.target_id) = some t →
      s'.targets.find? (fun d => d.id == r.target_id) = some { t with status := .AVAILABLE }) ∧
    (∀ (s : LabState) (rid : Nat) (au : Option Nat) (r : Reservation)
        (s' : LabState) (r' : Reservation) (t : TargetDevice),
      s.reservations.find? (owned_by rid au) = some r →
      r.status = .ACTIVE →
      delete_reservation s rid au = .ok (s', r') →
      s.targets.find? (fun d => d.id == r.target_id) = some t →
      s'.targets.find? (fun d => d.id == r.target_id) = some { t with status := .AVAILABLE }) := by
  constructor
  · intro s rid au upd r st s' r' t hfind hact hst hstne hok hT
    obtain ⟨us, ue, ust⟩ := upd
    have hst' : ust = some st := hst
    subst hst'
    simp only [update_reservation, hfind] at hok
    split at hok
    · exact absurd hok (by simp)
    · cases us <;> cases ue <;> simp [hact, hstne] at hok <;>
        · obtain ⟨hs, -⟩ := hok
          subst hs
          exact find?_set_target_status s.targets r.target_id .AVAILABLE t hT
  · intro s rid au r s' r' t hfind hact hok hT
    simp only [delete_reservation, hfind, if_pos hact] at hok
    injection hok with hok
    injection hok with hs hr
    subst hs
    exact find?_set_target_status s.targets r.target_id .AVAILABLE t hT

/-- Witness for C3's amended theorem at the counterexample's input, for both
the status-update path and the deletion path. -/
theorem out_of_active_releases_device_unconditionally_witness :
    (⟨[⟨1, "d1", "g1", none, none, none, false, false, none, .AVAILABLE, none, true⟩],
      [⟨5, 2, 1, none, 0, 10, .COMPLETED, .NORMAL, false, none⟩]⟩ :
        LabState).targets.find? (fun d => d.id == 1) =
      some ⟨1, "d1", "g1", none, none, none, false, false, none, .AVAILABLE, none, true⟩ ∧
    (⟨[⟨1, "d1", "g1", none, none, none, false, false, none, .AVAILABLE, none, true⟩],
      []⟩ : LabState).targets.find? (fun d => d.id == 1) =
      some ⟨1, "d1", "g1", none, none, none, false, false, none, .AVAILABLE, none, true⟩ :=
  ⟨out_of_active_releases_device_unconditionally.1
      ⟨[⟨1, "d1", "g1", none, none, none, false, false, none, .MAINTENANCE, none, true⟩],
       [⟨5, 2, 1, none, 0, 10, .ACTIVE, .NORMAL, false, none⟩]⟩
      5 none ⟨none, none, some .COMPLETED⟩
      ⟨5, 2, 1, none, 0, 10, .ACTIVE, .NORMAL, false, none⟩ .COMPLETED _ _
      ⟨1, "d1", "g1", none, none, none, false, false, none, .MAINTENANCE, none, true⟩
      rfl rfl rfl (by decide) rfl rfl,
   out_of_active_releases_device_unconditionally.2
      ⟨[⟨1, "d1", "g1", none, none, none, false, false, none, .MAINTENANCE, none, true⟩],
       [⟨5, 2, 1, none, 0, 10, .ACTIVE, .NORMAL, false, none⟩]⟩
      5 none ⟨5, 2, 1, none, 0, 10, .ACTIVE, .NORMAL, false, none⟩ _ _
      ⟨1, "d1", "g1", none, none, none, false, false, none, .MAINTENANCE, none, true⟩
      rfl rfl rfl rfl⟩

/-! ## C6: policy resolution in the availability check -/

/-- Reason component of the availability decision (the endpoint's `reason`
strings, one constructor per distinct message). -/
inductive AvailabilityReason
  | ok
  | targetNotBookable
  | conflictingReservations
  | durationExceeded
  | dailyLimitReached
  | cooldownActive
deriving DecidableEq, Repr

/-- The decision dictionary returned by GET `/reservations/availability`. -/
structure AvailabilityDecision where
  available : Bool
  reason : AvailabilityReason
  conflicts : List Nat
deriving DecidableEq, Repr

/-- `list(set(user_policies + target_policies))`: the union of the two
policy lists.  ORM rows are deduplicated by object identity, i.e. by primary
key. -/
def dedup_policies (ps : List ReservationPolicy) : List ReservationPolicy :=
  ps.foldl (fun acc p => if acc.any (fun q => q.id == p.id) then acc else acc ++ [p]) []

/-- `all_policies.sort(key=priority_level, reverse=True)` followed by
`all_policies[0]`: a stable descending sort followed by taking the first
element yields the first policy with maximal `priority_level`. -/
def highest_priority_policy : List ReservationPolicy → Option ReservationPolicy
  | [] => none
  | p :: ps =>
    some (ps.foldl (fun best q => if q.priority_level > best.priority_level then q else best) p)

/-- Resolved `max_duration_minutes`: default 240 unless a policy applies. -/
def resolved_max_duration (all_policies : List ReservationPolicy) : Int :=
  match highest_priority_policy all_policies with
  | none => 240
  | some p => p.max_duration_minutes

/-- Resolved `max_reservations_per_day`: default 3 unless a policy applies. -/
def resolved_max_reservations_per_day (all_policies : List ReservationPolicy) : Nat :=
  match highest_priority_policy all_policies with
  | none => 3
  | some p => p.max_reservations_per_day

/-- Resolved `cooldown_minutes`: default 60 unless a policy applies. -/
def resolved_cooldown (all_policies : List ReservationPolicy) : Int :=
  match highest_priority_policy all_policies with
  | none => 60
  | some p => p.cooldown_minutes

/-- GET `/reservations/availability` (`check_availability` in
`backend/routers/reservations.py`): bookable-status check, overlap scan,
policy resolution, duration cap, daily quota (reservations starting in the
current UTC day, `today_start` to `today_start + 1440`), and cooldown
against the user's most recent finished reservation. -/
def check_availability (s : LabState) (user_policies target_policies : List ReservationPolicy)
    (current_user_id : Nat) (target_id : Nat) (start_time end_time : Int)
    (today_start : Int) : Except ResError AvailabilityDecision :=
  match s.targets.find? (fun t => t.id == target_id) with
  | none => .error .targetNotFound
  | some target =>
    if ¬(target.status = .AVAILABLE ∨ target.status = .RESERVED) then
      .ok ⟨false, .targetNotBookable, []⟩
    else
      let conflicts := s.reservations.filter
        (fun r => reservation_conflicts_with r target_id start_time end_time)
      if conflicts ≠ [] then
        .ok ⟨false, .conflictingReservations, conflicts.map (fun r => r.id)⟩
      else
        let all_policies := dedup_policies (user_policies ++ target_policies)
        let max_duration_minutes := resolved_max_duration all_policies
        let max_reservations_per_day := resolved_max_reservations_per_day all_policies
        let cooldown_minutes := resolved_cooldown all_policies
        if end_time - start_time > max_duration_minutes then
          .ok ⟨false, .durationExceeded, []⟩
        else
          let daily_reservations_count := (s.reservations.filter (fun r =>
            r.user_id == current_user_id &&
            decide (today_start ≤ r.start_time) &&
            decide (r.start_time < today_start + 1440) &&
            r.status != .CANCELLED)).length
          if daily_reservations_count ≥ max_reservations_per_day then
            .ok ⟨false, .dailyLimitReached, []⟩
          else
            let last_reservation := (s.reservations.filter (fun r =>
                r.user_id == current_user_id &&
                decide (r.end_time ≤ start_time) &&
                r.status != .CANCELLED)).foldl
              (fun acc r => match acc with
                | none => some r
                | some b => if r.end_time > b.end_time then some r else some b) none
            match last_reservation with
            | some lastr =>
              if start_time < lastr.end_time + cooldown_minutes then
                .ok ⟨false, .cooldownActive, []⟩
              else
                .ok ⟨true, .ok, []⟩
            | none => .ok ⟨true, .ok, []⟩

/-- The running maximum of the fold inside `highest_priority_policy` is an
element of the input (or the seed) and dominates every priority level. -/
theorem foldl_max_policy (xs : List ReservationPolicy) (b : ReservationPolicy) :
    (xs.foldl (fun best q => if q.priority_level > best.priority_level then q else best) b = b ∨
      xs.foldl (fun best q => if q.priority_level > best.priority_level then q else best) b ∈ xs) ∧
    b.priority_level ≤
      (xs.foldl (fun best q => if q.priority_level > best.priority_level then q else best)
        b).priority_level ∧
    ∀ q ∈ xs, q.priority_level ≤
      (xs.foldl (fun best q => if q.priority_level > best.priority_level then q else best)
        b).priority_level := by
  induction xs generalizing b with
  | nil => simp
  | cons y ys ih =>
    simp only [List.foldl_cons]
    obtain ⟨hmem, hle, hall⟩ := ih (if y.priority_level > b.priority_level then y else b)
    refine ⟨?_, ?_, ?_⟩
    · rcases hmem with h | h
      · rw [h]
        split
        · exact Or.inr (List.mem_cons_self _ _)
        · exact Or.inl rfl
      · exact Or.inr (List.mem_cons_of_mem _ h)
    · refine le_trans ?_ hle
      split <;> omega
    · intro q hq
      rcases List.mem_cons.mp hq with h | h
      · subst h
        refine le_trans ?_ hle
        split <;> omega
      · exact hall q h

/-- C6: policy resolution in the availability check takes the union of the
user's and the device's policies; when the union is non-empty the policy
with the highest `priority_level` supplies all three limits exclusively
(a user policy with `priority_level = 1` and `max_duration = 60` combined
with a device policy with `priority_level = 5` and `max_duration = 480`
admits a 400-minute request); with no policies the defaults of 240 minutes,
3 reservations per day and 60 cooldown minutes apply. -/
theorem policy_resolution_highest_priority_wins :
    (∀ (ps : List ReservationPolicy) (p : ReservationPolicy),
      highest_priority_policy ps = some p →
        p ∈ ps ∧ ∀ q ∈ ps, q.priority_level ≤ p.priority_level) ∧
    (∀ (ps : List ReservationPolicy) (p : ReservationPolicy),
      highest_priority_policy ps = some p →
        resolved_max_duration ps = p.max_duration_minutes ∧
        resolved_max_reservations_per_day ps = p.max_reservations_per_day ∧
        resolved_cooldown ps = p.cooldown_minutes) ∧
    (∀ ps : List ReservationPolicy, ps ≠ [] → (highest_priority_policy ps).isSome) ∧
    (resolved_max_duration (dedup_policies ([] ++ [])) = 240 ∧
      resolved_max_reservations_per_day (dedup_policies ([] ++ [])) = 3 ∧
      resolved_cooldown (dedup_policies ([] ++ [])) = 60) ∧
    check_availability
        ⟨[⟨1, "d1", "g1", none, none, none, false, false, none, .AVAILABLE, none, true⟩], []⟩
        [⟨10, 60, 60, 3, 1, true, 15⟩] [⟨11, 480, 60, 3, 5, true, 15⟩]
        7 1 0 400 0 =
      .ok ⟨true, .ok, []⟩ := by
  refine ⟨?_, ?_, ?_, ⟨rfl, rfl, rfl⟩, by rfl⟩
  · intro ps p h
    cases ps with
    | nil => simp [highest_priority_policy] at h
    | cons x xs =>
      simp only [highest_priority_policy, Option.some.injEq] at h
      obtain ⟨hmem, hle, hall⟩ := foldl_max_policy xs x
      subst h
      refine ⟨?_, ?_⟩
      · rcases hmem with h | h
        · rw [h]; exact List.mem_cons_self _ _
        · exact List.mem_cons_of_mem _ h
      · intro q hq
        rcases List.mem_cons.mp hq with h | h
        · subst h; exact hle
        · exact hall q h
  · intro ps p h
    simp [resolved_max_duration, resolved_max_reservations_per_day, resolved_cooldown, h]
  · intro ps hps
    cases ps with
    | nil => exact absurd rfl hps
    | cons x xs => simp [highest_priority_policy]

/-- Witness for C6 at a two-element policy list with distinct priorities. -/
theorem policy_resolution_highest_priority_wins_witness :
    ((⟨11, 480, 60, 3, 5, true, 15⟩ : ReservationPolicy) ∈
        [(⟨10, 60, 60, 3, 1, true, 15⟩ : ReservationPolicy), ⟨11, 480, 60, 3, 5, true, 15⟩] ∧
      ∀ q ∈ [(⟨10, 60, 60, 3, 1, true, 15⟩ : ReservationPolicy), ⟨11, 480, 60, 3, 5, true, 15⟩],
        q.priority_level ≤ (⟨11, 480, 60, 3, 5, true, 15⟩ : ReservationPolicy).priority_level) ∧
    resolved_max_duration
        [⟨10, 60, 60, 3, 1, true, 15⟩, ⟨11, 480, 60, 3, 5, true, 15⟩] =
      (⟨11, 480, 60, 3, 5, true, 15⟩ : ReservationPolicy).max_duration_minutes :=
  ⟨policy_resolution_highest_priority_wins.1
      [⟨10, 60, 60, 3, 1, true, 15⟩, ⟨11, 480, 60, 3, 5, true, 15⟩]
      ⟨11, 480, 60, 3, 5, true, 15⟩ (by rfl),
   (policy_resolution_highest_priority_wins.2.1
      [⟨10, 60, 60, 3, 1, true, 15⟩, ⟨11, 480, 60, 3, 5, true, 15⟩]
      ⟨11, 480, 60, 3, 5, true, 15⟩ (by rfl)).1⟩

/-! ## C10: the lease-expiry sweep -/

/-- The `outerjoin` of a reservation with its policy:
`Reservation.policy_id == ReservationPolicy.id`, `none` when `policy_id` is
null or dangling. -/
def resolved_policy (policies : List ReservationPolicy) (r : Reservation) :
    Option ReservationPolicy :=
  match r.policy_id with
  | none => none
  | some pid => policies.find? (fun p => p.id == pid)

/-- The per-row decision of `expire_stale_reservations_task`: admin
overrides are skipped; auto-expire settings default to enabled / 15 minutes
unless a policy row was joined; the row expires when `auto_expire_enabled`
holds, `last_accessed_at` is non-null, and
`now > last_accessed_at + auto_expire_minutes`. -/
def reservation_expires (r : Reservation) (policy : Option ReservationPolicy) (now : Int) :
    Bool :=
  if r.is_admin_override then false
  else
    let auto_expire_enabled := match policy with | some p => p.auto_expire_enabled | none => true
    let auto_expire_minutes : Int := match policy with | some p => p.auto_expire_minutes | none => 15
    match r.last_accessed_at with
    | none => false
    | some la => auto_expire_enabled && decide (now > la + auto_expire_minutes)

/-- The rows of the sweep's query: `active` reservations inner-joined with
their target device. -/
def expire_rows (s : LabState) : List Reservation :=
  s.reservations.filter (fun r =>
    r.status == .ACTIVE && s.targets.any (fun t => t.id == r.target_id))

/-- Loop body of the sweep: a firing row is set to `expired` and its device
released to `available`. -/
def expire_step (policies : List ReservationPolicy) (now : Int) (st : LabState)
    (r : Reservation) : LabState :=
  if reservation_expires r (resolved_policy policies r) now then
    { targets := set_target_status st.targets r.target_id .AVAILABLE,
      reservations := update_first (fun x => x.id == r.id)
        (fun x => { x with status := .EXPIRED }) st.reservations }
  else st

/-- The background sweep `expire_stale_reservations_task`
(`backend/routers/reservations.py`). -/
def expire_stale_reservations_task (s : LabState) (policies : List ReservationPolicy)
    (now : Int) : LabState :=
  (expire_rows s).foldl (expire_step policies now) s

/-! ### Generic lemmas about `update_first` -/

theorem find?_update_first_of_disjoint {α : Type} (p q : α → Bool) (f : α → α) (l : List α)
    (hq : ∀ x, q x = true → p x = false) (hf : ∀ x, q x = true → p (f x) = false) :
    (update_first q f l).find? p = l.find? p := by
  induction l with
  | nil => rfl
  | cons x xs ih =>
    simp only [update_first]
    by_cases hx : q x = true
    · rw [if_pos hx]
      simp only [List.find?, hf x hx, hq x hx]
    · rw [if_neg hx]
      by_cases hpx : p x = true
      · simp only [List.find?, hpx]
      · have h0 : p x = false := by simpa using hpx
        simp only [List.find?, h0, ih]

theorem find?_update_first_self {α : Type} (q : α → Bool) (f : α → α) (l : List α) (x : α)
    (h : l.find? q = some x) (hf : ∀ y, q y = true → q (f y) = true) :
    (update_first q f l).find? q = some (f x) := by
  induction l with
  | nil => simp at h
  | cons y ys ih =>
    simp only [update_first]
    by_cases hy : q y = true
    · simp only [List.find?, hy] at h
      injection h with h; subst h
      rw [if_pos hy]
      simp only [List.find?, hf y hy]
    · have hy' : q y = false := by simpa using hy
      simp only [List.find?, hy'] at h
      rw [if_neg hy]
      simp only [List.find?, hy']
      exact ih h

theorem find?_isSome_update_first {α : Type} (p q : α → Bool) (f : α → α) (l : List α)
    (hf : ∀ x, p (f x) = p x) :
    ((update_first q f l).find? p).isSome = (l.find? p).isSome := by
  induction l with
  | nil => rfl
  | cons x xs ih =>
    simp only [update_first]
    by_cases hx : q x = true
    · rw [if_pos hx]
      by_cases hpx : p x = true
      · simp [List.find?, hf x, hpx]
      · have h0 : p x = false := by simpa using hpx
        simp [List.find?, hf x, h0]
    · rw [if_neg hx]
      by_cases hpx : p x = true
      · simp [List.find?, hpx]
      · have h0 : p x = false := by simpa using hpx
        simp only [List.find?, h0, ih]

theorem find?_id_of_mem_nodup (l : List Reservation) (r : Reservation)
    (hnod : (l.map (fun x => x.id)).Nodup) (hr : r ∈ l) :
    l.find? (fun x => x.id == r.id) = some r := by
  induction l with
  | nil => simp at hr
  | cons x xs ih =>
    rcases List.mem_cons.mp hr with h | h
    · subst h
      simp [List.find?]
    · have hnod' : (∀ y ∈ xs, ¬ y.id = x.id) ∧ (xs.map (fun x => x.id)).Nodup := by
        simpa using hnod
      have hxne : ¬(x.id = r.id) := fun he => hnod'.1 r h he.symm
      have h0 : (x.id == r.id) = false := by simpa using hxne
      simp only [List.find?, h0]
      exact ih hnod'.2 h

/-! ### Behaviour of the sweep's fold -/

theorem expire_fold_find?_of_ne (policies : List ReservationPolicy) (now : Int)
    (rows : List Reservation) (st : LabState) (rid : Nat)
    (h : ∀ r ∈ rows, r.id ≠ rid) :
    (rows.foldl (expire_step policies now) st).reservations.find? (fun x => x.id == rid) =
      st.reservations.find? (fun x => x.id == rid) := by
  induction rows generalizing st with
  | nil => rfl
  | cons row rest ih =>
    simp only [List.foldl_cons]
    rw [ih _ (fun r hr => h r (List.mem_cons_of_mem _ hr))]
    have hrow := h row (List.mem_cons_self _ _)
    unfold expire_step
    split
    · exact find?_update_first_of_disjoint _ _ _ _
        (fun x hx => by
          have hxid : x.id = row.id := by simpa using hx
          simp [hxid, hrow])
        (fun x hx => by
          have hxid : x.id = row.id := by simpa using hx
          simp [hxid, hrow])
    · rfl

theorem expire_fold_target_avail (policies : List ReservationPolicy) (now : Int)
    (rows : List Reservation) (st : LabState) (tid : Nat)
    (h : ∃ t, st.targets.find? (fun d => d.id == tid) = some t ∧ t.status = .AVAILABLE) :
    ∃ t, (rows.foldl (expire_step policies now) st).targets.find? (fun d => d.id == tid) =
        some t ∧ t.status = .AVAILABLE := by
  induction rows generalizing st with
  | nil => exact h
  | cons row rest ih =>
    simp only [List.foldl_cons]
    apply ih
    obtain ⟨t, ht, hav⟩ := h
    unfold expire_step
    split
    · by_cases hid : row.target_id = tid
      · subst hid
        exact ⟨{ t with status := .AVAILABLE },
          find?_set_target_status st.targets row.target_id .AVAILABLE t ht, rfl⟩
      · refine ⟨t, ?_, hav⟩
        simp only [set_target_status]
        have hdisj := find?_update_first_of_disjoint
          (fun (d : TargetDevice) => d.id == tid)
          (fun (d : TargetDevice) => d.id == row.target_id)
          (fun d => { d with status := DeviceStatus.AVAILABLE }) st.targets
          (fun x hx => by
            have hxid : x.id = row.target_id := by simpa using hx
            simp [hxid, hid])
          (fun x hx => by
            have hxid : x.id = row.target_id := by simpa using hx
            simp [hxid, hid])
        rw [hdisj]
        exact ht
    · exact ⟨t, ht, hav⟩

theorem expire_fold_target_present (policies : List ReservationPolicy) (now : Int)
    (rows : List Reservation) (st : LabState) (tid : Nat)
    (h : ((st.targets.find? (fun d => d.id == tid))).isSome) :
    (((rows.foldl (expire_step policies now) st).targets.find?
        (fun d => d.id == tid))).isSome := by
  induction rows generalizing st with
  | nil => exact h
  | cons row rest ih =>
    simp only [List.foldl_cons]
    apply ih
    unfold expire_step
    split
    · simp only [set_target_status]
      have hsame := find?_isSome_update_first
        (fun (d : TargetDevice) => d.id == tid)
        (fun (d : TargetDevice) => d.id == row.target_id)
        (fun d => { d with status := DeviceStatus.AVAILABLE }) st.targets (fun x => rfl)
      rw [hsame]
      exact h
    · exact h

/-- Effect of the sweep on a row of its snapshot query. -/
theorem expire_task_find?_mem (s : LabState) (policies : List ReservationPolicy) (now : Int)
    (r : Reservation) (hnod : (s.reservations.map (fun x => x.id)).Nodup)
    (hmem : r ∈ expire_rows s) :
    (expire_stale_reservations_task s policies now).reservations.find?
        (fun x => x.id == r.id) =
      (if reservation_expires r (resolved_policy policies r) now then
        some { r with status := .EXPIRED } else some r) ∧
    (reservation_expires r (resolved_policy policies r) now = true →
      ∃ t, (expire_stale_reservations_task s policies now).targets.find?
          (fun d => d.id == r.target_id) = some t ∧ t.status = .AVAILABLE) := by
  have hrows_sub : List.Sublist ((expire_rows s).map (fun x => x.id))
      (s.reservations.map (fun x => x.id)) :=
    (List.filter_sublist _).map _
  have hrows_nodup : ((expire_rows s).map (fun x => x.id)).Nodup :=
    hnod.sublist hrows_sub
  obtain ⟨l1, l2, hsplit⟩ := List.append_of_mem hmem
  have hids : ((l1.map (fun x => x.id)) ++ r.id :: l2.map (fun x => x.id)).Nodup := by
    have := hrows_nodup
    rw [hsplit] at this
    simpa using this
  have h1 : ∀ x ∈ l1, x.id ≠ r.id := by
    intro x hx he
    have hd := (List.nodup_append.mp hids).2.2
    exact hd (he ▸ List.mem_map_of_mem (fun x => x.id) hx) (List.mem_cons_self _ _)
  have h2 : ∀ x ∈ l2, x.id ≠ r.id := by
    intro x hx he
    have hd := List.nodup_cons.mp (List.nodup_append.mp hids).2.1
    exact hd.1 (he ▸ List.mem_map_of_mem (fun x => x.id) hx)
  have hbase : s.reservations.find? (fun x => x.id == r.id) = some r :=
    find?_id_of_mem_nodup _ _ hnod (List.mem_filter.mp hmem).1
  have hcond := (List.mem_filter.mp hmem).2
  have htany : (s.targets.any (fun t => t.id == r.target_id)) = true := by
    simp only [Bool.and_eq_true] at hcond
    exact hcond.2
  have htbase : ((s.targets.find? (fun d => d.id == r.target_id))).isSome := by
    rw [List.find?_isSome]
    simpa using htany
  unfold expire_stale_reservations_task
  rw [hsplit, List.foldl_append, List.foldl_cons]
  have hst1res : (l1.foldl (expire_step policies now) s).reservations.find?
      (fun x => x.id == r.id) = some r :=
    (expire_fold_find?_of_ne policies now l1 s r.id h1).trans hbase
  have hst1t : (((l1.foldl (expire_step policies now) s).targets.find?
      (fun d => d.id == r.target_id))).isSome :=
    expire_fold_target_present policies now l1 s r.target_id htbase
  cases hfire : reservation_expires r (resolved_policy policies r) now with
  | false =>
    refine ⟨?_, by simp [hfire]⟩
    rw [if_neg (by simp [hfire])]
    have hstep : expire_step policies now (l1.foldl (expire_step policies now) s) r =
        l1.foldl (expire_step policies now) s := by
      unfold expire_step
      rw [if_neg (by simp [hfire])]
    rw [hstep, expire_fold_find?_of_ne policies now l2 _ r.id h2]
    exact hst1res
  | true =>
    have hstep : expire_step policies now (l1.foldl (expire_step policies now) s) r =
        { targets := set_target_status (l1.foldl (expire_step policies now) s).targets
            r.target_id .AVAILABLE,
          reservations := update_first (fun x => x.id == r.id)
            (fun x => { x with status := .EXPIRED })
            (l1.foldl (expire_step policies now) s).reservations } := by
      unfold expire_step
      rw [if_pos (by simp [hfire])]
    rw [hstep]
    constructor
    · rw [if_pos (by simp [hfire])]
      rw [expire_fold_find?_of_ne policies now l2 _ r.id h2]
      exact find?_update_first_self _ _ _ _ hst1res (fun y hy => hy)
    · intro _
      apply expire_fold_target_avail
      obtain ⟨t1, ht1⟩ := Option.isSome_iff_exists.mp hst1t
      exact ⟨{ t1 with status := .AVAILABLE },
        find?_set_target_status _ _ _ _ ht1, rfl⟩

/-- C10: the lease-expiry sweep never expires an active reservation whose
`last_accessed_at` is null — such a reservation stays untouched regardless
of its window; the per-row decision fires exactly for non-admin-override
rows with auto-expire enabled and a non-null `last_accessed_at` older than
`now` minus the resolved `auto_expire_minutes`; rows that do not fire (or
are not active) are unchanged, and rows that fire become `expired` with
their device set to `available`. -/
theorem expiry_sweep_lease_spec :
    (∀ (s : LabState) (policies : List ReservationPolicy) (now : Int) (r : Reservation),
      (s.reservations.map (fun x => x.id)).Nodup →
      r ∈ s.reservations → r.status = .ACTIVE → r.last_accessed_at = none →
      (expire_stale_reservations_task s policies now).reservations.find?
          (fun x => x.id == r.id) = some r) ∧
    (∀ (r : Reservation) (policy : Option ReservationPolicy) (now : Int),
      reservation_expires r policy now = true ↔
        (r.is_admin_override = false ∧
          (match policy with | some p => p.auto_expire_enabled = true | none => True) ∧
          ∃ la, r.last_accessed_at = some la ∧
            la + (match policy with | some p => p.auto_expire_minutes | none => 15) < now)) ∧
    (∀ (s : LabState) (policies : List ReservationPolicy) (now : Int) (r : Reservation),
      (s.reservations.map (fun x => x.id)).Nodup →
      r ∈ s.reservations →
      (r.status ≠ .ACTIVE ∨ reservation_expires r (resolved_policy policies r) now = false) →
      (expire_stale_reservations_task s policies now).reservations.find?
          (fun x => x.id == r.id) = some r) ∧
    (∀ (s : LabState) (policies : List ReservationPolicy) (now : Int) (r : Reservation),
      (s.reservations.map (fun x => x.id)).Nodup →
      r ∈ s.reservations → r.status = .ACTIVE →
      (s.targets.any (fun t => t.id == r.target_id)) = true →
      reservation_expires r (resolved_policy policies r) now = true →
      (expire_stale_reservations_task s policies now).reservations.find?
          (fun x => x.id == r.id) = some { r with status := .EXPIRED } ∧
      ∃ t, (expire_stale_reservations_task s policies now).targets.find?
          (fun d => d.id == r.target_id) = some t ∧ t.status = .AVAILABLE) := by
  have hfire_none : ∀ (r : Reservation) (pol : Option ReservationPolicy) (now : Int),
      r.last_accessed_at = none → reservation_expires r pol now = false := by
    intro r pol now hla
    unfold reservation_expires
    split
    · rfl
    · rw [hla]
  have hnotmem : ∀ (s : LabState) (policies : List ReservationPolicy) (now : Int)
      (r : Reservation), (s.reservations.map (fun x => x.id)).Nodup →
      r ∈ s.reservations → r ∉ expire_rows s →
      (expire_stale_reservations_task s policies now).reservations.find?
        (fun x => x.id == r.id) = some r := by
    intro s policies now r hnod hr hnm
    unfold expire_stale_reservations_task
    rw [expire_fold_find?_of_ne policies now _ s r.id ?_]
    · exact find?_id_of_mem_nodup _ _ hnod hr
    · intro x hx he
      have hxmem : x ∈ s.reservations := (List.mem_filter.mp hx).1
      have hxr : x = r := List.inj_on_of_nodup_map hnod hxmem hr he
      exact hnm (hxr ▸ hx)
  have hneg : ∀ (s : LabState) (policies : List ReservationPolicy) (now : Int)
      (r : Reservation), (s.reservations.map (fun x => x.id)).Nodup →
      r ∈ s.reservations →
      (r.status ≠ .ACTIVE ∨ reservation_expires r (resolved_policy policies r) now = false) →
      (expire_stale_reservations_task s policies now).reservations.find?
          (fun x => x.id == r.id) = some r := by
    intro s policies now r hnod hr hcase
    by_cases hmem : r ∈ expire_rows s
    · rcases hcase with hst | hfire
      · have hb := (List.mem_filter.mp hmem).2
        simp only [Bool.and_eq_true, beq_iff_eq] at hb
        exact absurd hb.1 hst
      · have := (expire_task_find?_mem s policies now r hnod hmem).1
        rwa [if_neg (by simp [hfire])] at this
    · exact hnotmem s policies now r hnod hr hmem
  refine ⟨?_, ?_, hneg, ?_⟩
  · intro s policies now r hnod hr hact hla
    exact hneg s policies now r hnod hr (Or.inr (hfire_none r _ now hla))
  · intro r policy now
    cases hov : r.is_admin_override <;> cases hla : r.last_accessed_at <;>
      cases policy <;>
      simp [reservation_expires, hov, hla]
  · intro s policies now r hnod hr hact htany hfire
    have hmem : r ∈ expire_rows s := by
      rw [expire_rows, List.mem_filter]
      exact ⟨hr, by simp [hact, htany]⟩
    obtain ⟨h1, h2⟩ := expire_task_find?_mem s policies now r hnod hmem
    refine ⟨?_, h2 hfire⟩
    rwa [if_pos (by simp [hfire])] at h1

/-- Witness for C10: a one-row sweep where the active reservation's
`last_accessed_at` is 20 minutes old against the default 15-minute lease
expires the row and frees the device, while a null `last_accessed_at` row
stays untouched. -/
theorem expiry_sweep_lease_spec_witness :
    (expire_stale_reservations_task
        ⟨[⟨1, "d1", "g1", none, none, none, false, false, none, .RESERVED, none, true⟩],
         [⟨5, 2, 1, none, 0, 300, .ACTIVE, .NORMAL, false, some 100⟩]⟩ [] 120).reservations.find?
        (fun x => x.id == (5 : Nat)) =
      some ⟨5, 2, 1, none, 0, 300, .EXPIRED, .NORMAL, false, some 100⟩ ∧
    (expire_stale_reservations_task
        ⟨[⟨1, "d1", "g1", none, none, none, false, false, none, .RESERVED, none, true⟩],
         [⟨5, 2, 1, none, 0, 300, .ACTIVE, .NORMAL, false, none⟩]⟩ [] 120).reservations.find?
        (fun x => x.id == (5 : Nat)) =
      some ⟨5, 2, 1, none, 0, 300, .ACTIVE, .NORMAL, false, none⟩ :=
  ⟨(expiry_sweep_lease_spec.2.2.2
      ⟨[⟨1, "d1", "g1", none, none, none, false, false, none, .RESERVED, none, true⟩],
       [⟨5, 2, 1, none, 0, 300, .ACTIVE, .NORMAL, false, some 100⟩]⟩ [] 120
      ⟨5, 2, 1, none, 0, 300, .ACTIVE, .NORMAL, false, some 100⟩
      (by decide) (by decide) rfl (by decide) (by decide)).1,
   expiry_sweep_lease_spec.1
      ⟨[⟨1, "d1", "g1", none, none, none, false, false, none, .RESERVED, none, true⟩],
       [⟨5, 2, 1, none, 0, 300, .ACTIVE, .NORMAL, false, none⟩]⟩ [] 120
      ⟨5, 2, 1, none, 0, 300, .ACTIVE, .NORMAL, false, none⟩
      (by decide) (by decide) rfl rfl⟩

/-! ## Heartbeat reconciliation (`process_heartbeat` in
`backend/routers/targets.py`), for C4, C5 and C7 -/

/-- A device entry of a heartbeat batch (`HeartbeatDeviceInfo` in
`backend/schemas/target.py`); as in the `TargetDevice` embedding, the
remaining hardware-descriptor fields are represented by
`ip_address`/`android_version`.  The schema has no `status` field. -/
structure HeartbeatDeviceInfo where
  name : String
  gateway_id : String
  serial_number : Option String
  ip_address : Option String
  android_version : Option String
  adb_status : Bool
  serial_status : Bool
  health_check_score : Option Int
deriving DecidableEq, Repr

/-- A heartbeat batch (`HeartbeatRequest`). -/
structure HeartbeatRequest where
  gateway_id : String
  devices : List HeartbeatDeviceInfo
deriving DecidableEq, Repr

/-- The matching filter of the update loop:
`(serial_number == payload.serial_number) | ((gateway_id == payload.gateway_id)
& (name == payload.name))`.  SQLAlchemy compiles `column == value` with a
non-null payload serial to an SQL equality (null rows never equal it) and
with a `None` payload serial to `serial_number IS NULL`, which matches every
device whose serial is null — i.e. the serial clause is equality of the two
`Option` values. -/
def matches_device_data (d : TargetDevice) (info : HeartbeatDeviceInfo) : Bool :=
  (match info.serial_number with
    | some s => d.serial_number == some s
    | none => d.serial_number == none) ||
  (d.gateway_id == info.gateway_id && d.name == info.name)

/-- Update of a matched device: every payload field except `status` is
copied; then the status is set to `available` unless it is `reserved` or
`maintenance`; finally `last_heartbeat` is refreshed. -/
def apply_device_data (d : TargetDevice) (info : HeartbeatDeviceInfo) (now : Int) :
    TargetDevice :=
  let d1 := { d with
    name := info.name,
    gateway_id := info.gateway_id,
    serial_number := info.serial_number,
    ip_address := info.ip_address,
    android_version := info.android_version,
    adb_status := info.adb_status,
    serial_status := info.serial_status,
    health_check_score := info.health_check_score }
  let d2 := if d1.status ≠ .RESERVED ∧ d1.status ≠ .MAINTENANCE then
      { d1 with status := .AVAILABLE } else d1
  { d2 with last_heartbeat := some now }

/-- A `status_changed_targets` audit entry. -/
structure StatusChange where
  id : Nat
  original_status : DeviceStatus
  new_status : DeviceStatus
deriving DecidableEq, Repr

/-- The audit entry the update loop emits for a matched device: only inside
the not-reserved/not-maintenance branch, and only when the original status
differed from the new `available`. -/
def device_status_change (d : TargetDevice) : Option StatusChange :=
  if d.status ≠ .RESERVED ∧ d.status ≠ .MAINTENANCE ∧ d.status ≠ .AVAILABLE then
    some ⟨d.id, d.status, .AVAILABLE⟩
  else none

/-- Auto-registration of an unmatched payload entry: created `available`,
active, with a fresh `last_heartbeat`. -/
def new_device_from (info : HeartbeatDeviceInfo) (next_id : Nat) (now : Int) : TargetDevice :=
  { id := next_id, name := info.name, gateway_id := info.gateway_id,
    serial_number := info.serial_number, ip_address := info.ip_address,
    android_version := info.android_version, adb_status := info.adb_status,
    serial_status := info.serial_status, health_check_score := info.health_check_score,
    status := .AVAILABLE, last_heartbeat := some now, is_active := true }

/-- Accumulated effect of `process_heartbeat`: the device table, the id
counter, the `status_changed_targets` audit list, and the ids of the
auto-registered devices (`new_targets`). -/
structure HeartbeatOutcome where
  devices : List TargetDevice
  next_id : Nat
  status_changes : List StatusChange
  registered : List Nat
deriving DecidableEq, Repr

/-- One iteration of the update loop of `process_heartbeat`. -/
def process_device_data (now : Int) (acc : HeartbeatOutcome) (info : HeartbeatDeviceInfo) :
    HeartbeatOutcome :=
  match acc.devices.find? (fun d => matches_device_data d info) with
  | some d =>
    { devices := update_first (fun x => matches_device_data x info)
        (fun x => apply_device_data x info now) acc.devices,
      next_id := acc.next_id,
      status_changes := acc.status_changes ++ (device_status_change d).toList,
      registered := acc.registered }
  | none =>
    { devices := acc.devices ++ [new_device_from info acc.next_id now],
      next_id := acc.next_id + 1,
      status_changes := acc.status_changes,
      registered := acc.registered ++ [acc.next_id] }

/-- Filter of the missing-device query: same gateway, name not among the
names just reported, and active. -/
def offline_condition (gw : String) (names : List String) (d : TargetDevice) : Bool :=
  d.gateway_id == gw && !(names.contains d.name) && d.is_active

/-- The mutation applied to a missing device: `offline`, with the adb and
serial sub-channel statuses cleared. -/
def mark_offline (d : TargetDevice) : TargetDevice :=
  { d with status := .OFFLINE, adb_status := false, serial_status := false }

/-- Effect of the missing-device pass on one row: devices returned by the
query whose status is not `reserved`/`maintenance` are marked offline. -/
def offline_one (gw : String) (names : List String) (d : TargetDevice) : TargetDevice :=
  if offline_condition gw names d && !(d.status == .RESERVED) &&
      !(d.status == .MAINTENANCE) then
    mark_offline d
  else d

/-- The audit entry of the missing-device pass, emitted only when the
original status differed from `offline`. -/
def offline_event (gw : String) (names : List String) (d : TargetDevice) :
    Option StatusChange :=
  if offline_condition gw names d && !(d.status == .RESERVED) &&
      !(d.status == .MAINTENANCE) && !(d.status == .OFFLINE) then
    some ⟨d.id, d.status, .OFFLINE⟩
  else none

/-- POST `/targets/heartbeat` (`process_heartbeat`): the per-entry update
loop (match by serial, else by gateway and name, else auto-register),
followed by the missing-device pass over the set difference of device names.
-/
def process_heartbeat (devices : List TargetDevice) (next_id : Nat)
    (hb : HeartbeatRequest) (now : Int) : HeartbeatOutcome :=
  let after_updates := hb.devices.foldl (process_device_data now)
    ⟨devices, next_id, [], []⟩
  let names := hb.devices.map (fun i => i.name)
  { devices := after_updates.devices.map (offline_one hb.gateway_id names),
    next_id := after_updates.next_id,
    status_changes := after_updates.status_changes ++
      after_updates.devices.filterMap (offline_event hb.gateway_id names),
    registered := after_updates.registered }

/-! ### Field-level lemmas about the heartbeat primitives -/

theorem apply_device_data_id (d : TargetDevice) (info : HeartbeatDeviceInfo) (now : Int) :
    (apply_device_data d info now).id = d.id := by
  simp only [apply_device_data]
  split <;> rfl

theorem apply_device_data_frozen (d : TargetDevice) (info : HeartbeatDeviceInfo) (now : Int)
    (h : d.status = .RESERVED ∨ d.status = .MAINTENANCE) :
    apply_device_data d info now = { d with
      name := info.name,
      gateway_id := info.gateway_id,
      serial_number := info.serial_number,
      ip_address := info.ip_address,
      android_version := info.android_version,
      adb_status := info.adb_status,
      serial_status := info.serial_status,
      health_check_score := info.health_check_score,
      last_heartbeat := some now } := by
  simp only [apply_device_data]
  rw [if_neg (by rcases h with h | h <;> simp [h])]

theorem apply_device_data_status_frozen (d : TargetDevice) (info : HeartbeatDeviceInfo)
    (now : Int) (h : d.status = .RESERVED ∨ d.status = .MAINTENANCE) :
    (apply_device_data d info now).status = d.status := by
  rw [apply_device_data_frozen d info now h]

theorem offline_one_frozen (gw : String) (names : List String) (d : TargetDevice)
    (h : d.status = .RESERVED ∨ d.status = .MAINTENANCE) :
    offline_one gw names d = d := by
  unfold offline_one
  rw [if_neg (by rcases h with h | h <;> simp [h])]

theorem offline_one_id (gw : String) (names : List String) (d : TargetDevice) :
    (offline_one gw names d).id = d.id := by
  unfold offline_one
  split <;> rfl

/-! ### Positional lemmas -/

theorem update_first_getElem? {α : Type} (q : α → Bool) (f : α → α) (l : List α) (i : Nat) :
    (update_first q f l)[i]? = l[i]? ∨ (update_first q f l)[i]? = (l[i]?.map f) := by
  induction l generalizing i with
  | nil => left; rfl
  | cons x xs ih =>
    simp only [update_first]
    by_cases hx : q x = true
    · rw [if_pos hx]
      cases i with
      | zero => right; simp
      | succ n => left; simp
    · rw [if_neg hx]
      cases i with
      | zero => left; simp
      | succ n => simpa using ih n

theorem getElem?_append_left_of_some {α : Type} (l l2 : List α) (i : Nat) (a : α)
    (h : l[i]? = some a) : (l ++ l2)[i]? = some a := by
  induction l generalizing i with
  | nil => simp at h
  | cons x xs ih =>
    cases i with
    | zero => simpa using h
    | succ n => simpa using ih n (by simpa using h)

/-- The update loop never disturbs the status or the id of a device that is
`reserved` or under `maintenance`. -/
theorem heartbeat_fold_status_frozen (now : Int) (entries : List HeartbeatDeviceInfo)
    (acc : HeartbeatOutcome) (i : Nat) (d : TargetDevice)
    (hd : acc.devices[i]? = some d)
    (h : d.status = .RESERVED ∨ d.status = .MAINTENANCE) :
    ∃ d', ((entries.foldl (process_device_data now) acc).devices)[i]? = some d' ∧
      d'.status = d.status ∧ d'.id = d.id := by
  induction entries generalizing acc d with
  | nil => exact ⟨d, hd, rfl, rfl⟩
  | cons e rest ih =>
    simp only [List.foldl_cons]
    have hstep : ∃ d1, (process_device_data now acc e).devices[i]? = some d1 ∧
        d1.status = d.status ∧ d1.id = d.id := by
      unfold process_device_data
      cases hf : acc.devices.find? (fun x => matches_device_data x e) with
      | some dm =>
        rcases update_first_getElem? (fun x => matches_device_data x e)
            (fun x => apply_device_data x e now) acc.devices i with hsame | hmap
        · exact ⟨d, by rw [hsame, hd], rfl, rfl⟩
        · refine ⟨apply_device_data d e now, ?_, ?_, apply_device_data_id d e now⟩
          · rw [hmap, hd]; rfl
          · exact apply_device_data_status_frozen d e now h
      | none =>
        exact ⟨d, getElem?_append_left_of_some _ _ _ _ hd, rfl, rfl⟩
    obtain ⟨d1, hd1, hst1, hid1⟩ := hstep
    obtain ⟨d', hd', hst', hid'⟩ := ih (process_device_data now acc e) d1 hd1
      (by rw [hst1]; exact h)
    exact ⟨d', hd', by rw [hst', hst1], by rw [hid', hid1]⟩

/-- C4: a heartbeat batch never changes the status of a device that is
`reserved` or under `maintenance`: when the device is matched by a batch
entry its hardware/health fields and `last_heartbeat` are still refreshed
with the status untouched, and when it is absent from the batch it is exempt
from the offline transition. -/
theorem heartbeat_preserves_reserved_and_maintenance :
    (∀ (devices : List TargetDevice) (next_id : Nat) (hb : HeartbeatRequest) (now : Int)
        (i : Nat) (d : TargetDevice),
      devices[i]? = some d → (d.status = .RESERVED ∨ d.status = .MAINTENANCE) →
      ∃ d', (process_heartbeat devices next_id hb now).devices[i]? = some d' ∧
        d'.status = d.status ∧ d'.id = d.id) ∧
    (∀ (d : TargetDevice) (info : HeartbeatDeviceInfo) (now : Int),
      d.status = .RESERVED ∨ d.status = .MAINTENANCE →
      apply_device_data d info now = { d with
        name := info.name,
        gateway_id := info.gateway_id,
        serial_number := info.serial_number,
        ip_address := info.ip_address,
        android_version := info.android_version,
        adb_status := info.adb_status,
        serial_status := info.serial_status,
        health_check_score := info.health_check_score,
        last_heartbeat := some now }) ∧
    (∀ (gw : String) (names : List String) (d : TargetDevice),
      d.status = .RESERVED ∨ d.status = .MAINTENANCE →
      offline_one gw names d = d) := by
  refine ⟨?_, apply_device_data_frozen, offline_one_frozen⟩
  intro devices next_id hb now i d hd h
  obtain ⟨dm, hdm, hstm, hidm⟩ := heartbeat_fold_status_frozen now hb.devices
    ⟨devices, next_id, [], []⟩ i d hd h
  refine ⟨offline_one hb.gateway_id (hb.devices.map (fun e => e.name)) dm, ?_, ?_, ?_⟩
  · unfold process_heartbeat
    simp only [List.getElem?_map, hdm]
    rfl
  · rw [offline_one_frozen _ _ _ (by rw [hstm]; exact h), hstm]
  · rw [offline_one_id, hidm]

/-- Witness for C4: a reserved device reported in a batch keeps `reserved`
while its fields and heartbeat are refreshed, and a maintenance device stays
exempt from the offline pass. -/
theorem heartbeat_preserves_reserved_and_maintenance_witness :
    (∃ d', (process_heartbeat
        [⟨1, "a", "G", some "S", none, none, false, false, none, .RESERVED, none, true⟩] 2
        ⟨"G", [⟨"a", "G", some "S", none, none, true, true, some 90⟩]⟩ 5).devices[0]? =
          some d' ∧
      d'.status = (⟨1, "a", "G", some "S", none, none, false, false, none,
        .RESERVED, none, true⟩ : TargetDevice).status ∧
      d'.id = (⟨1, "a", "G", some "S", none, none, false, false, none,
        .RESERVED, none, true⟩ : TargetDevice).id) ∧
    offline_one "G" ["b"]
        ⟨1, "a", "G", some "S", none, none, false, false, none, .MAINTENANCE, none, true⟩ =
      ⟨1, "a", "G", some "S", none, none, false, false, none, .MAINTENANCE, none, true⟩ :=
  ⟨heartbeat_preserves_reserved_and_maintenance.1
      [⟨1, "a", "G", some "S", none, none, false, false, none, .RESERVED, none, true⟩] 2
      ⟨"G", [⟨"a", "G", some "S", none, none, true, true, some 90⟩]⟩ 5 0
      ⟨1, "a", "G", some "S", none, none, false, false, none, .RESERVED, none, true⟩
      rfl (Or.inl rfl),
   heartbeat_preserves_reserved_and_maintenance.2.2 "G" ["b"]
      ⟨1, "a", "G", some "S", none, none, false, false, none, .MAINTENANCE, none, true⟩
      (Or.inr rfl)⟩

/-! ## C5: the missing-device (offline) pass -/

/-- C5 amended (offline pass characterisation): after the update loop,
every device — at its position in the table — whose gateway matches the
batch, whose name (as left by the update loop) is not among the reported
names, which is active and whose status is neither `reserved` nor
`maintenance`, ends the batch `offline` with its adb and serial sub-channel
statuses cleared. -/
theorem heartbeat_offline_pass_spec :
    ∀ (devices : List TargetDevice) (next_id : Nat) (hb : HeartbeatRequest) (now : Int)
      (i : Nat) (d : TargetDevice),
      ((hb.devices.foldl (process_device_data now)
          ⟨devices, next_id, [], []⟩).devices)[i]? = some d →
      d.gateway_id = hb.gateway_id →
      ((hb.devices.map (fun e => e.name)).contains d.name) = false →
      d.is_active = true →
      d.status ≠ .RESERVED → d.status ≠ .MAINTENANCE →
      (process_heartbeat devices next_id hb now).devices[i]? = some (mark_offline d) := by
  intro devices next_id hb now i d hmid hgw hname hactive hr hm
  unfold process_heartbeat
  simp only [List.getElem?_map, hmid]
  have hcond : offline_one hb.gateway_id (hb.devices.map (fun e => e.name)) d =
      mark_offline d := by
    unfold offline_one
    have hoc : offline_condition hb.gateway_id (List.map (fun e => e.name) hb.devices) d =
        true := by
      unfold offline_condition
      rw [hgw, hname, hactive]
      simp
    have hbr : (d.status == DeviceStatus.RESERVED) = false := by simpa using hr
    have hbm : (d.status == DeviceStatus.MAINTENANCE) = false := by simpa using hm
    rw [if_pos (by rw [hoc, hbr, hbm]; rfl)]
  rw [Option.map_some']
  rw [hcond]

/-- Witness for C5's amended theorem: a device of the batch's gateway left
unmatched by the update loop goes offline with its sub-channels cleared. -/
theorem heartbeat_offline_pass_spec_witness :
    (process_heartbeat
        [⟨1, "a", "G", none, none, none, true, true, none, .AVAILABLE, none, true⟩] 2
        ⟨"G", []⟩ 5).devices[0]? =
      some (mark_offline
        ⟨1, "a", "G", none, none, none, true, true, none, .AVAILABLE, none, true⟩) :=
  heartbeat_offline_pass_spec
    [⟨1, "a", "G", none, none, none, true, true, none, .AVAILABLE, none, true⟩] 2
    ⟨"G", []⟩ 5 0
    ⟨1, "a", "G", none, none, none, true, true, none, .AVAILABLE, none, true⟩
    rfl rfl rfl rfl (by decide) (by decide)

/-- C5 counterexample: a batch entry can match a device by serial number and
rename it; the set difference is computed against the names as updated, not
the previously-known names.  Here device 1 was previously known to gateway
`G` as `"a"`, the batch reports only `"b"` (same serial), and the device
ends the batch `available` with its adb/serial statuses taken from the
payload — not `offline` with cleared sub-channels as the claim requires for
the previously-known name `"a" ∉ {"b"}`. -/
theorem heartbeat_missing_name_counterexample :
    ("a" ∉ ["b"]) ∧
    process_heartbeat
        [⟨1, "a", "G", some "S", none, none, false, false, none, .AVAILABLE, none, true⟩] 2
        ⟨"G", [⟨"b", "G", some "S", none, none, true, true, none⟩]⟩ 5 =
      ⟨[⟨1, "b", "G", some "S", none, none, true, true, none, .AVAILABLE, some 5, true⟩],
       2, [], []⟩ :=
  ⟨by decide, by rfl⟩

/-! ## C7: idempotence of heartbeat application -/

/-- C7 counterexample: with entries that reuse serial numbers and
gateway/name pairs inside one batch, re-applying the same batch
auto-registers a new device the second time (and thus changes the device
set).  The first application leaves one device `⟨1, "b", "H", serial T⟩`;
the second application finds no match for the first entry and registers a
fresh device with id 2. -/
theorem heartbeat_idempotence_counterexample :
    process_heartbeat [] 1
        ⟨"G", [⟨"a", "G", some "S", none, none, false, false, none⟩,
               ⟨"a", "G", some "T", none, none, false, false, none⟩,
               ⟨"b", "H", some "T", none, none, false, false, none⟩]⟩ 5 =
      ⟨[⟨1, "b", "H", some "T", none, none, false, false, none, .AVAILABLE, some 5, true⟩],
       2, [], [1]⟩ ∧
    (process_heartbeat
        [⟨1, "b", "H", some "T", none, none, false, false, none, .AVAILABLE, some 5, true⟩] 2
        ⟨"G", [⟨"a", "G", some "S", none, none, false, false, none⟩,
               ⟨"a", "G", some "T", none, none, false, false, none⟩,
               ⟨"b", "H", some "T", none, none, false, false, none⟩]⟩ 5).registered =
      [2] ∧
    (process_heartbeat
        [⟨1, "b", "H", some "T", none, none, false, false, none, .AVAILABLE, some 5, true⟩] 2
        ⟨"G", [⟨"a", "G", some "S", none, none, false, false, none⟩,
               ⟨"a", "G", some "T", none, none, false, false, none⟩,
               ⟨"b", "H", some "T", none, none, false, false, none⟩]⟩ 5).devices ≠
      [⟨1, "b", "H", some "T", none, none, false, false, none, .AVAILABLE, some 5, true⟩] := by
  refine ⟨by rfl, by rfl, by decide⟩

/-! ### Projection and idempotence lemmas for the update loop -/

theorem apply_device_data_name (d : TargetDevice) (info : HeartbeatDeviceInfo) (now : Int) :
    (apply_device_data d info now).name = info.name := by
  simp only [apply_device_data]
  split <;> rfl

theorem apply_device_data_gateway (d : TargetDevice) (info : HeartbeatDeviceInfo) (now : Int) :
    (apply_device_data d info now).gateway_id = info.gateway_id := by
  simp only [apply_device_data]
  split <;> rfl

theorem apply_device_data_serial (d : TargetDevice) (info : HeartbeatDeviceInfo) (now : Int) :
    (apply_device_data d info now).serial_number = info.serial_number := by
  simp only [apply_device_data]
  split <;> rfl

/-- A device just written by a payload entry matches that entry again. -/
theorem matches_apply_self (d : TargetDevice) (info : HeartbeatDeviceInfo) (now : Int) :
    matches_device_data (apply_device_data d info now) info = true := by
  simp only [matches_device_data, apply_device_data_gateway, apply_device_data_name,
    beq_self_eq_true, Bool.and_self, Bool.or_true]

/-- A freshly auto-registered device matches the payload entry it came from. -/
theorem matches_new_self (info : HeartbeatDeviceInfo) (nid : Nat) (now : Int) :
    matches_device_data (new_device_from info nid now) info = true := by
  simp only [matches_device_data, new_device_from, beq_self_eq_true, Bool.and_self,
    Bool.or_true]

theorem apply_device_data_idem (d : TargetDevice) (info : HeartbeatDeviceInfo) (now : Int) :
    apply_device_data (apply_device_data d info now) info now =
      apply_device_data d info now := by
  cases hst : d.status <;> simp [apply_device_data, hst]

theorem device_status_change_apply (d : TargetDevice) (info : HeartbeatDeviceInfo)
    (now : Int) : device_status_change (apply_device_data d info now) = none := by
  cases hst : d.status <;> simp [apply_device_data, device_status_change, hst]

theorem apply_device_data_new (info : HeartbeatDeviceInfo) (nid : Nat) (now : Int) :
    apply_device_data (new_device_from info nid now) info now =
      new_device_from info nid now := by
  simp [apply_device_data, new_device_from]

theorem device_status_change_new (info : HeartbeatDeviceInfo) (nid : Nat) (now : Int) :
    device_status_change (new_device_from info nid now) = none := by
  simp [device_status_change, new_device_from]

/-! ### More `find?` / `update_first` lemmas -/

theorem update_first_eq_self {α : Type} (q : α → Bool) (f : α → α) (l : List α) (x : α)
    (h : l.find? q = some x) (hfx : f x = x) : update_first q f l = l := by
  induction l with
  | nil => rfl
  | cons y ys ih =>
    simp only [update_first]
    by_cases hy : q y = true
    · simp only [List.find?, hy] at h
      injection h with h
      subst h
      rw [if_pos hy, hfx]
    · have hy' : q y = false := by simpa using hy
      simp only [List.find?, hy'] at h
      rw [if_neg hy, ih h]

theorem find?_append_some {α : Type} (q : α → Bool) (l l2 : List α) (x : α)
    (h : l.find? q = some x) : (l ++ l2).find? q = some x := by
  induction l with
  | nil => simp at h
  | cons y ys ih =>
    by_cases hy : q y = true
    · simp only [List.find?, hy] at h
      simpa [List.find?, hy] using h
    · have hy' : q y = false := by simpa using hy
      simp only [List.find?, hy'] at h
      simpa [List.find?, hy'] using ih h

theorem find?_append_none_singleton {α : Type} (q : α → Bool) (l : List α) (x : α)
    (h : l.find? q = none) (hx : q x = true) : (l ++ [x]).find? q = some x := by
  induction l with
  | nil => simp [List.find?, hx]
  | cons y ys ih =>
    by_cases hy : q y = true
    · simp [List.find?, hy] at h
    · have hy' : q y = false := by simpa using hy
      simp only [List.find?, hy'] at h
      simpa [List.find?, hy'] using ih h

theorem find?_update_first_of_no_new_match {α : Type} (q q' : α → Bool) (g : α → α)
    (l : List α) (d : α) (h : l.find? q = some d) (hg : ∀ y, q (g y) = false)
    (hd : q' d = false) : (update_first q' g l).find? q = some d := by
  induction l with
  | nil => simp at h
  | cons x xs ih =>
    simp only [update_first]
    by_cases hx' : q' x = true
    · rw [if_pos hx']
      by_cases hx : q x = true
      · simp only [List.find?, hx] at h
        injection h with h
        subst h
        exact absurd hx' (by simp [hd])
      · have hx0 : q x = false := by simpa using hx
        simp only [List.find?, hx0] at h
        simpa [List.find?, hg x] using h
    · rw [if_neg hx']
      by_cases hx : q x = true
      · simp only [List.find?, hx] at h
        simpa [List.find?, hx] using h
      · have hx0 : q x = false := by simpa using hx
        simp only [List.find?, hx0] at h
        simpa [List.find?, hx0] using ih h

theorem find?_map_of_pred_invariant {α : Type} (q : α → Bool) (h : α → α) (l : List α)
    (d : α) (hq : ∀ y, q (h y) = q y) (hfix : h d = d) (hfind : l.find? q = some d) :
    (l.map h).find? q = some d := by
  induction l with
  | nil => simp at hfind
  | cons x xs ih =>
    by_cases hx : q x = true
    · simp only [List.find?, hx] at hfind
      injection hfind with hfind
      subst hfind
      simp only [List.map_cons, List.find?]
      rw [hfix]
      simp [hx]
    · have hx0 : q x = false := by simpa using hx
      simp only [List.find?, hx0] at hfind
      simp only [List.map_cons, List.find?]
      rw [hq]
      simpa [hx0] using ih hfind

/-! ### Offline pass lemmas -/

theorem matches_offline_one (gw : String) (names : List String) (y : TargetDevice)
    (info : HeartbeatDeviceInfo) :
    matches_device_data (offline_one gw names y) info = matches_device_data y info := by
  unfold offline_one
  split <;> rfl

theorem offline_one_of_name_mem (gw : String) (names : List String) (d : TargetDevice)
    (h : names.contains d.name = true) : offline_one gw names d = d := by
  unfold offline_one
  rw [if_neg]
  intro hcond
  simp only [offline_condition, Bool.and_eq_true, Bool.not_eq_true'] at hcond
  obtain ⟨⟨⟨⟨-, hcont⟩, -⟩, -⟩, -⟩ := hcond
  rw [h] at hcont
  cases hcont

theorem offline_one_idem (gw : String) (names : List String) (d : TargetDevice) :
    offline_one gw names (offline_one gw names d) = offline_one gw names d := by
  unfold offline_one
  by_cases h : (offline_condition gw names d && !(d.status == DeviceStatus.RESERVED) &&
      !(d.status == DeviceStatus.MAINTENANCE)) = true
  · rw [if_pos h]
    have hoc : offline_condition gw names d = true := by
      have h2 := h
      simp only [Bool.and_eq_true] at h2
      exact h2.1.1
    rw [if_pos]
    · rfl
    · rw [show offline_condition gw names (mark_offline d) =
          offline_condition gw names d from rfl, hoc]
      rfl
  · rw [if_neg h, if_neg h]

theorem offline_event_of_offline_one (gw : String) (names : List String) (d : TargetDevice) :
    offline_event gw names (offline_one gw names d) = none := by
  unfold offline_one
  by_cases h : (offline_condition gw names d && !(d.status == DeviceStatus.RESERVED) &&
      !(d.status == DeviceStatus.MAINTENANCE)) = true
  · rw [if_pos h]
    simp [offline_event, mark_offline]
  · rw [if_neg h]
    have h' : (offline_condition gw names d && !(d.status == DeviceStatus.RESERVED) &&
        !(d.status == DeviceStatus.MAINTENANCE)) = false := by simpa using h
    simp [offline_event, h']

/-! ### Idempotence machinery -/

/-- Two batch entries with non-interfering identities: their serial numbers
differ as `Option` values (two null serials interfere through the `IS NULL`
clause just like two equal non-null ones), and they differ in gateway or in
name. -/
def entries_disjoint (a b : HeartbeatDeviceInfo) : Prop :=
  a.serial_number ≠ b.serial_number ∧
  (a.gateway_id ≠ b.gateway_id ∨ a.name ≠ b.name)

/-- The device table already reflects entry `info`: its first match is a
device that a further application of `info` leaves unchanged and whose
re-processing emits no status-change event. -/
def entry_fixed (now : Int) (l : List TargetDevice) (info : HeartbeatDeviceInfo) : Prop :=
  ∃ d, l.find? (fun x => matches_device_data x info) = some d ∧
    apply_device_data d info now = d ∧ device_status_change d = none

theorem matches_eq_false_of_distinct (d : TargetDevice) (b : HeartbeatDeviceInfo)
    (hser : d.serial_number ≠ b.serial_number)
    (hgn : d.gateway_id ≠ b.gateway_id ∨ d.name ≠ b.name) :
    matches_device_data d b = false := by
  unfold matches_device_data
  have h1 : (match b.serial_number with
      | some s => d.serial_number == some s
      | none => d.serial_number == none) = false := by
    cases hb : b.serial_number with
    | none =>
      have hne : d.serial_number ≠ none := fun he => hser (by rw [he, hb])
      simpa using hne
    | some s =>
      have hne : d.serial_number ≠ some s := fun he => hser (by rw [he, hb])
      simpa using hne
  have h2 : (d.gateway_id == b.gateway_id && d.name == b.name) = false := by
    rcases hgn with h | h <;> simp [h]
  rw [h1, h2]
  rfl

theorem step_establishes_fixed (now : Int) (acc : HeartbeatOutcome)
    (e : HeartbeatDeviceInfo) :
    entry_fixed now ((process_device_data now acc e).devices) e := by
  unfold process_device_data
  cases hf : acc.devices.find? (fun x => matches_device_data x e) with
  | some d =>
    exact ⟨apply_device_data d e now,
      find?_update_first_self _ _ _ _ hf (fun y _ => matches_apply_self y e now),
      apply_device_data_idem d e now, device_status_change_apply d e now⟩
  | none =>
    exact ⟨new_device_from e acc.next_id now,
      find?_append_none_singleton _ _ _ hf (matches_new_self e acc.next_id now),
      apply_device_data_new e acc.next_id now, device_status_change_new e acc.next_id now⟩

theorem step_preserves_fixed (now : Int) (acc : HeartbeatOutcome)
    (e' info : HeartbeatDeviceInfo) (hdisj : entries_disjoint info e')
    (hfix : entry_fixed now acc.devices info) :
    entry_fixed now ((process_device_data now acc e').devices) info := by
  obtain ⟨d, hfind, hidem, hev⟩ := hfix
  have hdser : d.serial_number = info.serial_number := by
    have h := apply_device_data_serial d info now
    rw [hidem] at h
    exact h
  have hdgw : d.gateway_id = info.gateway_id := by
    have h := apply_device_data_gateway d info now
    rw [hidem] at h
    exact h
  have hdname : d.name = info.name := by
    have h := apply_device_data_name d info now
    rw [hidem] at h
    exact h
  unfold process_device_data
  cases hf : acc.devices.find? (fun x => matches_device_data x e') with
  | some dm =>
    refine ⟨d, ?_, hidem, hev⟩
    apply find?_update_first_of_no_new_match _ _ _ _ _ hfind
    · intro y
      apply matches_eq_false_of_distinct
      · rw [apply_device_data_serial]
        exact fun he => hdisj.1 he.symm
      · rw [apply_device_data_gateway, apply_device_data_name]
        rcases hdisj.2 with h | h
        · exact Or.inl (fun he => h he.symm)
        · exact Or.inr (fun he => h he.symm)
    · apply matches_eq_false_of_distinct
      · rw [hdser]
        exact hdisj.1
      · rw [hdgw, hdname]
        exact hdisj.2
  | none =>
    exact ⟨d, find?_append_some _ _ _ _ hfind, hidem, hev⟩

theorem fold_preserves_fixed (now : Int) (rest : List HeartbeatDeviceInfo) :
    ∀ (acc : HeartbeatOutcome) (info : HeartbeatDeviceInfo),
      entry_fixed now acc.devices info →
      (∀ e' ∈ rest, entries_disjoint info e') →
      entry_fixed now ((rest.foldl (process_device_data now) acc).devices) info := by
  induction rest with
  | nil => intro acc info hfix _; exact hfix
  | cons e' r ih =>
    intro acc info hfix hdisj
    simp only [List.foldl_cons]
    exact ih (process_device_data now acc e') info
      (step_preserves_fixed now acc e' info (hdisj e' (List.mem_cons_self _ _)) hfix)
      (fun x hx => hdisj x (List.mem_cons_of_mem _ hx))

theorem fold_all_fixed (now : Int) (entries : List HeartbeatDeviceInfo) :
    ∀ (acc : HeartbeatOutcome), entries.Pairwise entries_disjoint →
      ∀ e ∈ entries,
        entry_fixed now ((entries.foldl (process_device_data now) acc).devices) e := by
  induction entries with
  | nil => intro acc _ e he; simp at he
  | cons e rest ih =>
    intro acc hpair x hx
    obtain ⟨hhead, hrest⟩ := List.pairwise_cons.mp hpair
    rcases List.mem_cons.mp hx with h | h
    · subst h
      simp only [List.foldl_cons]
      exact fold_preserves_fixed now rest (process_device_data now acc x) x
        (step_establishes_fixed now acc x) hhead
    · simp only [List.foldl_cons]
      exact ih (process_device_data now acc e) hrest x h

theorem step_identity (now : Int) (acc : HeartbeatOutcome) (e : HeartbeatDeviceInfo)
    (hfix : entry_fixed now acc.devices e) :
    process_device_data now acc e = acc := by
  obtain ⟨d, hfind, hidem, hev⟩ := hfix
  unfold process_device_data
  rw [hfind]
  simp only [hev, Option.toList_none, List.append_nil,
    update_first_eq_self (fun x => matches_device_data x e)
      (fun x => apply_device_data x e now) acc.devices d hfind hidem]

theorem fold_identity (now : Int) (entries : List HeartbeatDeviceInfo) :
    ∀ (acc : HeartbeatOutcome), (∀ e ∈ entries, entry_fixed now acc.devices e) →
      entries.foldl (process_device_data now) acc = acc := by
  induction entries with
  | nil => intro acc _; rfl
  | cons e rest ih =>
    intro acc hfix
    simp only [List.foldl_cons]
    rw [step_identity now acc e (hfix e (List.mem_cons_self _ _))]
    exact ih acc (fun x hx => hfix x (List.mem_cons_of_mem _ hx))

theorem offline_preserves_fixed (now : Int) (gw : String) (names : List String)
    (l : List TargetDevice) (info : HeartbeatDeviceInfo)
    (hname : names.contains info.name = true)
    (hfix : entry_fixed now l info) :
    entry_fixed now (l.map (offline_one gw names)) info := by
  obtain ⟨d, hfind, hidem, hev⟩ := hfix
  have hdn : d.name = info.name := by
    have h := apply_device_data_name d info now
    rw [hidem] at h
    exact h
  exact ⟨d, find?_map_of_pred_invariant _ _ _ _
    (fun y => matches_offline_one gw names y info)
    (offline_one_of_name_mem gw names d (by rw [hdn]; exact hname)) hfind,
    hidem, hev⟩

/-- C7 amended: heartbeat application is idempotent for batches whose
entries have pairwise non-interfering identities (pairwise distinct serial
number values — two null serials interfere through `IS NULL` — and pairwise
distinct `(gateway_id, name)`): applying such a batch a second time leaves
the device table and the id counter unchanged and emits no status-change and
no registration events. -/
theorem heartbeat_idempotent_for_disjoint_batches :
    ∀ (devices : List TargetDevice) (next_id : Nat) (hb : HeartbeatRequest) (now : Int),
      hb.devices.Pairwise entries_disjoint →
      process_heartbeat (process_heartbeat devices next_id hb now).devices
          (process_heartbeat devices next_id hb now).next_id hb now =
        ⟨(process_heartbeat devices next_id hb now).devices,
         (process_heartbeat devices next_id hb now).next_id, [], []⟩ := by
  intro devices next_id hb now hpair
  have hmidfix : ∀ e ∈ hb.devices, entry_fixed now
      ((hb.devices.foldl (process_device_data now)
        ⟨devices, next_id, [], []⟩).devices) e :=
    fold_all_fixed now hb.devices ⟨devices, next_id, [], []⟩ hpair
  have hOdev : (process_heartbeat devices next_id hb now).devices =
      ((hb.devices.foldl (process_device_data now)
        ⟨devices, next_id, [], []⟩).devices).map
        (offline_one hb.gateway_id (hb.devices.map (fun i => i.name))) := rfl
  have ho1fix : ∀ e ∈ hb.devices, entry_fixed now
      (process_heartbeat devices next_id hb now).devices e := by
    intro e he
    rw [hOdev]
    have hcont : ((hb.devices.map (fun i => i.name)).contains e.name) = true := by
      have : e.name ∈ hb.devices.map (fun i => i.name) :=
        List.mem_map_of_mem (fun i => i.name) he
      simpa using this
    exact offline_preserves_fixed now hb.gateway_id _ _ e hcont (hmidfix e he)
  set O := process_heartbeat devices next_id hb now with hO
  have hfold2 : hb.devices.foldl (process_device_data now)
      ⟨O.devices, O.next_id, [], []⟩ = ⟨O.devices, O.next_id, [], []⟩ :=
    fold_identity now hb.devices ⟨O.devices, O.next_id, [], []⟩
      (fun e he => ho1fix e he)
  have hmap2 : O.devices.map
      (offline_one hb.gateway_id (hb.devices.map (fun i => i.name))) = O.devices := by
    rw [hOdev, List.map_map]
    apply List.map_congr_left
    intro d _
    exact offline_one_idem hb.gateway_id _ d
  have hev2 : O.devices.filterMap
      (offline_event hb.gateway_id (hb.devices.map (fun i => i.name))) = [] := by
    rw [hOdev]
    refine List.filterMap_eq_nil_iff.mpr ?_
    intro x hx
    obtain ⟨y, -, rfl⟩ := List.mem_map.mp hx
    exact offline_event_of_offline_one hb.gateway_id _ y
  simp only [process_heartbeat]
  rw [hfold2]
  simp only [List.nil_append]
  rw [hmap2, hev2]

/-- Witness for C7's amended theorem at a two-entry batch with distinct
serial numbers and names, applied from an empty device table. -/
theorem heartbeat_idempotent_for_disjoint_batches_witness :
    process_heartbeat
        (process_heartbeat [] 1
          ⟨"G", [⟨"a", "G", some "S", none, none, false, false, none⟩,
                 ⟨"b", "G", some "T", none, none, false, false, none⟩]⟩ 5).devices
        (process_heartbeat [] 1
          ⟨"G", [⟨"a", "G", some "S", none, none, false, false, none⟩,
                 ⟨"b", "G", some "T", none, none, false, false, none⟩]⟩ 5).next_id
        ⟨"G", [⟨"a", "G", some "S", none, none, false, false, none⟩,
               ⟨"b", "G", some "T", none, none, false, false, none⟩]⟩ 5 =
      ⟨(process_heartbeat [] 1
          ⟨"G", [⟨"a", "G", some "S", none, none, false, false, none⟩,
                 ⟨"b", "G", some "T", none, none, false, false, none⟩]⟩ 5).devices,
       (process_heartbeat [] 1
          ⟨"G", [⟨"a", "G", some "S", none, none, false, false, none⟩,
                 ⟨"b", "G", some "T", none, none, false, false, none⟩]⟩ 5).next_id,
       [], []⟩ :=
  heartbeat_idempotent_for_disjoint_batches [] 1
    ⟨"G", [⟨"a", "G", some "S", none, none, false, false, none⟩,
           ⟨"b", "G", some "T", none, none, false, false, none⟩]⟩ 5
    (by
      constructor
      · intro b hb
        have hb' : b = ⟨"b", "G", some "T", none, none, false, false, none⟩ := by
          simpa using hb
        subst hb'
        exact ⟨by decide, Or.inr (by decide)⟩
      · exact List.pairwise_singleton _ _)

/-! ## Gateways (`backend/routers/gateways.py`), for C8 and C9 -/

/-- Gateway type enumeration of `backend/models/gateway.py`. -/
inductive GatewayType
  | MASTER
  | REGION
  | SITE
  | STANDALONE
deriving DecidableEq, Repr

/-- Gateway status enumeration of `backend/models/gateway.py`. -/
inductive GatewayStatus
  | ONLINE
  | OFFLINE
  | MAINTENANCE
  | DEGRADED
deriving DecidableEq, Repr

/-- A `gateways` row, restricted to the columns the hierarchy and the
create/update paths read or write. -/
structure Gateway where
  gateway_id : String
  name : String
  gateway_type : GatewayType
  parent_gateway_id : Option String
  status : GatewayStatus
  is_active : Bool
deriving DecidableEq, Repr

/-- Python truthiness of an `Optional[str]`: `None` and the empty string are
falsy. -/
def truthy_str : Option String → Bool
  | none => false
  | some s => !(s == "")

/-- Body of a `GatewayCreate` request. -/
structure GatewayCreate where
  gateway_id : String
  name : String
  gateway_type : GatewayType
  parent_gateway_id : Option String
deriving DecidableEq, Repr

/-- Body of a `GatewayUpdate` request under `exclude_unset` semantics: an
outer `none` means the field was absent from the request; `some v` means it
was explicitly set to `v` (possibly null). -/
structure GatewayUpdate where
  name : Option String
  parent_gateway_id : Option (Option String)
deriving DecidableEq, Repr

/-- The value of `gateway_data.parent_gateway_id` as the endpoint's guards
read it (Pydantic supplies `None` when the field was not sent). -/
def parent_field_value (u : GatewayUpdate) : Option String :=
  match u.parent_gateway_id with
  | some v => v
  | none => none

/-- Error outcomes of the gateway endpoints. -/
inductive GwError
  | duplicateGatewayId
  | parentNotFound
  | selfParent
  | gatewayNotFound
deriving DecidableEq, Repr

/-- POST `/gateways/` (`create_gateway`): duplicate-id check, existence
check of a (truthy) parent, then insert with the model defaults
(`status = offline`, `is_active = true`). -/
def create_gateway (gateways : List Gateway) (req : GatewayCreate) :
    Except GwError (List Gateway × Gateway) :=
  if (gateways.find? (fun g => g.gateway_id == req.gateway_id)).isSome then
    .error .duplicateGatewayId
  else if truthy_str req.parent_gateway_id &&
      !(match req.parent_gateway_id with
        | some p => (gateways.find? (fun g => g.gateway_id == p)).isSome
        | none => false) then
    .error .parentNotFound
  else
    let g : Gateway :=
      { gateway_id := req.gateway_id,
        name := req.name,
        gateway_type := req.gateway_type,
        parent_gateway_id := req.parent_gateway_id,
        status := .OFFLINE,
        is_active := true }
    .ok (gateways ++ [g], g)

/-- PUT `/gateways/{gateway_id}` (`update_gateway`): when a truthy parent id
is being changed, reject `parent == own id` ("Gateway cannot be its own
parent") and a missing parent; then apply the set fields. -/
def update_gateway (gateways : List Gateway) (gateway_id : String) (u : GatewayUpdate) :
    Except GwError (List Gateway × Gateway) :=
  match gateways.find? (fun g => g.gateway_id == gateway_id) with
  | none => .error .gatewayNotFound
  | some g =>
    let pval := parent_field_value u
    let g' : Gateway := { g with
      name := u.name.getD g.name,
      parent_gateway_id :=
        match u.parent_gateway_id with
        | some v => v
        | none => g.parent_gateway_id }
    if truthy_str pval && !(pval == g.parent_gateway_id) then
      if pval == some g.gateway_id then .error .selfParent
      else if !(match pval with
          | some p => (gateways.find? (fun x => x.gateway_id == p)).isSome
          | none => false) then
        .error .parentNotFound
      else
        .ok (update_first (fun x => x.gateway_id == gateway_id) (fun _ => g') gateways, g')
    else
      .ok (update_first (fun x => x.gateway_id == gateway_id) (fun _ => g') gateways, g')

/-- A create or update operation against the gateway table. -/
inductive GatewayOp
  | create (req : GatewayCreate)
  | update (gateway_id : String) (u : GatewayUpdate)
deriving DecidableEq, Repr

/-- State after an operation; a rejected operation leaves the table
unchanged. -/
def apply_gateway_op (gateways : List Gateway) (op : GatewayOp) : List Gateway :=
  match op with
  | .create req =>
    match create_gateway gateways req with
    | .ok (gs, _) => gs
    | .error _ => gateways
  | .update gid u =>
    match update_gateway gateways gid u with
    | .ok (gs, _) => gs
    | .error _ => gateways

/-- Ancestor relation along `parent_gateway_id` edges, with fuel bounding
the chain length. -/
def is_ancestor (gateways : List Gateway) : Nat → String → String → Bool
  | 0, _, _ => false
  | fuel + 1, anc, gid =>
    match gateways.find? (fun x => x.gateway_id == gid) with
    | none => false
    | some x =>
      match x.parent_gateway_id with
      | none => false
      | some p => p == anc || is_ancestor gateways fuel anc p

/-- C8 counterexample: create `A`, create `B` with parent `A`, then update
`A`'s parent to `B`.  Every operation is accepted — the update only rejects
`parent == own id` — and afterwards `A` is its own ancestor through the
two-edge chain `A → B → A`. -/
theorem gateway_cycle_counterexample :
    create_gateway [] ⟨"A", "na", .SITE, none⟩ =
      .ok ([⟨"A", "na", .SITE, none, .OFFLINE, true⟩],
           ⟨"A", "na", .SITE, none, .OFFLINE, true⟩) ∧
    create_gateway [⟨"A", "na", .SITE, none, .OFFLINE, true⟩]
        ⟨"B", "nb", .SITE, some "A"⟩ =
      .ok ([⟨"A", "na", .SITE, none, .OFFLINE, true⟩,
            ⟨"B", "nb", .SITE, some "A", .OFFLINE, true⟩],
           ⟨"B", "nb", .SITE, some "A", .OFFLINE, true⟩) ∧
    update_gateway
        [⟨"A", "na", .SITE, none, .OFFLINE, true⟩,
         ⟨"B", "nb", .SITE, some "A", .OFFLINE, true⟩] "A" ⟨none, some (some "B")⟩ =
      .ok ([⟨"A", "na", .SITE, some "B", .OFFLINE, true⟩,
            ⟨"B", "nb", .SITE, some "A", .OFFLINE, true⟩],
           ⟨"A", "na", .SITE, some "B", .OFFLINE, true⟩) ∧
    is_ancestor
        [⟨"A", "na", .SITE, some "B", .OFFLINE, true⟩,
         ⟨"B", "nb", .SITE, some "A", .OFFLINE, true⟩] 2 "A" "A" = true :=
  ⟨rfl, rfl, rfl, rfl⟩

/-- No gateway is its own direct parent. -/
def no_self_parent (gateways : List Gateway) : Prop :=
  ∀ g ∈ gateways, g.parent_gateway_id ≠ some g.gateway_id

/-- Every gateway id is a non-empty string. -/
def nonempty_ids (gateways : List Gateway) : Prop :=
  ∀ g ∈ gateways, g.gateway_id ≠ ""

theorem mem_update_first {α : Type} (q : α → Bool) (f : α → α) (l : List α) :
    ∀ x ∈ update_first q f l, x ∈ l ∨ ∃ y, y ∈ l ∧ q y = true ∧ x = f y := by
  induction l with
  | nil => intro x hx; exact absurd hx (by simp [update_first])
  | cons z zs ih =>
    intro x hx
    simp only [update_first] at hx
    by_cases hz : q z = true
    · rw [if_pos hz] at hx
      rcases List.mem_cons.mp hx with h | h
      · exact Or.inr ⟨z, List.mem_cons_self _ _, hz, h⟩
      · exact Or.inl (List.mem_cons_of_mem _ h)
    · rw [if_neg hz] at hx
      rcases List.mem_cons.mp hx with h | h
      · exact Or.inl (h ▸ List.mem_cons_self _ _)
      · rcases ih x h with h' | ⟨y, hy, hqy, hxy⟩
        · exact Or.inl (List.mem_cons_of_mem _ h')
        · exact Or.inr ⟨y, List.mem_cons_of_mem _ hy, hqy, hxy⟩

theorem apply_gateway_op_preserves (s : List Gateway) (op : GatewayOp)
    (h1 : no_self_parent s) (h2 : nonempty_ids s)
    (hop : ∀ req, op = .create req → req.gateway_id ≠ "") :
    no_self_parent (apply_gateway_op s op) ∧ nonempty_ids (apply_gateway_op s op) := by
  cases op with
  | create req =>
    have hid : req.gateway_id ≠ "" := hop req rfl
    simp only [apply_gateway_op]
    cases hc : create_gateway s req with
    | error e => exact ⟨h1, h2⟩
    | ok pair =>
      obtain ⟨gs, gnew⟩ := pair
      show no_self_parent gs ∧ nonempty_ids gs
      simp only [create_gateway] at hc
      split at hc
      · exact absurd hc (by simp)
      · rename_i hdup
        split at hc
        · exact absurd hc (by simp)
        · rename_i hpar
          injection hc with hc
          injection hc with hcs hcg
          subst hcs
          have hnewpar : (req.parent_gateway_id ≠ some req.gateway_id) := by
            cases hp : req.parent_gateway_id with
            | none => simp
            | some p =>
              intro hcontra
              injection hcontra with hcontra
              by_cases hpe : p = ""
              · exact hid (by rw [← hcontra, hpe])
              · have htr : truthy_str req.parent_gateway_id = true := by
                  simp [truthy_str, hp, hpe]
                have hex : (match req.parent_gateway_id with
                    | some p => (s.find? (fun g => g.gateway_id == p)).isSome
                    | none => false) = true := by
                  by_contra hne
                  exact hpar (by simp [htr, Bool.eq_false_iff.mpr hne])
                rw [hp] at hex
                rw [hcontra] at hex
                exact hdup hex
          constructor
          · intro x hx
            rcases List.mem_append.mp hx with h | h
            · exact h1 x h
            · have hxg := List.mem_singleton.mp h
              subst hxg
              exact hnewpar
          · intro x hx
            rcases List.mem_append.mp hx with h | h
            · exact h2 x h
            · have hxg := List.mem_singleton.mp h
              subst hxg
              exact hid
  | update gid u =>
    simp only [apply_gateway_op]
    cases hc : update_gateway s gid u with
    | error e => exact ⟨h1, h2⟩
    | ok pair =>
      obtain ⟨gs, gnew⟩ := pair
      show no_self_parent gs ∧ nonempty_ids gs
      cases hf : s.find? (fun g => g.gateway_id == gid) with
      | none =>
        simp only [update_gateway, hf] at hc
        exact absurd hc (by simp)
      | some g =>
        have hgmem : g ∈ s := List.mem_of_find?_eq_some hf
        have hgpar : g.parent_gateway_id ≠ some g.gateway_id := h1 g hgmem
        have hgid : g.gateway_id ≠ "" := h2 g hgmem
        have hfinish : ∀ (v : Option String),
            gs = update_first (fun x => x.gateway_id == gid)
              (fun _ => { g with name := u.name.getD g.name, parent_gateway_id := v }) s →
            v ≠ some g.gateway_id →
            no_self_parent gs ∧ nonempty_ids gs := by
          intro v hgs hvne
          subst hgs
          constructor
          · intro x hx
            rcases mem_update_first _ _ _ x hx with h | ⟨y, hy, hqy, hxy⟩
            · exact h1 x h
            · subst hxy
              exact hvne
          · intro x hx
            rcases mem_update_first _ _ _ x hx with h | ⟨y, hy, hqy, hxy⟩
            · exact h2 x h
            · subst hxy
              exact hgid
        cases hu : u.parent_gateway_id with
        | none =>
          simp only [update_gateway, parent_field_value, hf, hu, truthy_str,
            Bool.false_and, Bool.and_eq_true] at hc
          rw [if_neg (by simp)] at hc
          injection hc with hc
          injection hc with hcs hcg
          exact hfinish g.parent_gateway_id hcs.symm hgpar
        | some v =>
          simp only [update_gateway, parent_field_value, hf, hu] at hc
          split at hc
          · rename_i hbranch
            split at hc
            · exact absurd hc (by simp)
            · rename_i hself
              split at hc
              · exact absurd hc (by simp)
              · injection hc with hc
                injection hc with hcs hcg
                exact hfinish v hcs.symm (by simpa using hself)
          · rename_i hbranch
            injection hc with hc
            injection hc with hcs hcg
            refine hfinish v hcs.symm ?_
            cases hv : v with
            | none => simp
            | some p =>
              intro hcontra
              injection hcontra with hcontra
              by_cases hpe : p = ""
              · exact hgid (by rw [← hcontra, hpe])
              · apply hbranch
                rw [hv]
                have h1b : truthy_str (some p) = true := by simp [truthy_str, hpe]
                have h2b : (some p == g.parent_gateway_id) = false := by
                  rw [hcontra]
                  have := hgpar
                  simp only [ne_eq] at this
                  simpa using fun he => this he.symm
                rw [h1b, h2b]
                rfl
          

/-- C8 amended: rejections in gateway create/update prevent only direct
self-parenting: starting from a table with no self-parent edge and no empty
gateway id, any sequence of create (with non-empty ids) and update
operations preserves "no gateway is its own parent"; cycles of length at
least two are not prevented (see the counterexample). -/
theorem gateway_ops_preserve_no_self_parent :
    ∀ (ops : List GatewayOp) (s0 : List Gateway),
      no_self_parent s0 → nonempty_ids s0 →
      (∀ op ∈ ops, ∀ req, op = .create req → req.gateway_id ≠ "") →
      no_self_parent (ops.foldl apply_gateway_op s0) := by
  have haux : ∀ (ops : List GatewayOp) (s0 : List Gateway),
      no_self_parent s0 → nonempty_ids s0 →
      (∀ op ∈ ops, ∀ req, op = .create req → req.gateway_id ≠ "") →
      no_self_parent (ops.foldl apply_gateway_op s0) ∧
        nonempty_ids (ops.foldl apply_gateway_op s0) := by
    intro ops
    induction ops with
    | nil => intro s0 h1 h2 _; exact ⟨h1, h2⟩
    | cons op rest ih =>
      intro s0 h1 h2 hops
      simp only [List.foldl_cons]
      obtain ⟨h1', h2'⟩ := apply_gateway_op_preserves s0 op h1 h2
        (fun req he => hops op (List.mem_cons_self _ _) req he)
      exact ih (apply_gateway_op s0 op) h1' h2'
        (fun o ho req he => hops o (List.mem_cons_of_mem _ ho) req he)
  intro ops s0 h1 h2 hops
  exact (haux ops s0 h1 h2 hops).1

/-- Witness for C8's amended theorem at the counterexample's operation
sequence: even after the cycle-creating update, no gateway is its own
direct parent. -/
theorem gateway_ops_preserve_no_self_parent_witness :
    no_self_parent
      ([GatewayOp.create ⟨"A", "na", .SITE, none⟩,
        GatewayOp.create ⟨"B", "nb", .SITE, some "A"⟩,
        GatewayOp.update "A" ⟨none, some (some "B")⟩].foldl apply_gateway_op []) :=
  gateway_ops_preserve_no_self_parent
    [GatewayOp.create ⟨"A", "na", .SITE, none⟩,
     GatewayOp.create ⟨"B", "nb", .SITE, some "A"⟩,
     GatewayOp.update "A" ⟨none, some (some "B")⟩] []
    (fun g hg => absurd hg (by simp))
    (fun g hg => absurd hg (by simp))
    (by
      intro op hop req he
      subst he
      simp only [List.mem_cons] at hop
      rcases hop with h | h | h
      · cases h; decide
      · cases h; decide
      · simp at h)

/-! ## C9: the hierarchy query (`get_gateway_hierarchy`) -/

/-- A node of the hierarchy response (`GatewayHierarchyNode`). -/
structure GatewayHierarchyNode where
  gateway_id : String
  name : String
  gateway_type : GatewayType
  status : GatewayStatus
  children : List GatewayHierarchyNode

/-- The node built for a gateway, with its children populated from the
parent-child connection pass: a gateway is attached under its parent's node
when its `parent_gateway_id` is truthy and is a key of the node dictionary
(i.e. an active gateway id).  The mutated node dictionary of the source is
modelled by structural recursion; `fuel` bounds the chain length and is
instantiated with the number of active gateways, which (ids being unique)
bounds the depth of every tree reachable from a parentless root. -/
def build_node (actives : List Gateway) : Nat → Gateway → GatewayHierarchyNode
  | 0, g => ⟨g.gateway_id, g.name, g.gateway_type, g.status, []⟩
  | fuel + 1, g =>
    ⟨g.gateway_id, g.name, g.gateway_type, g.status,
      (actives.filter (fun h => match h.parent_gateway_id with
        | some p => !(p == "") && p == g.gateway_id
        | none => false)).map (build_node actives fuel)⟩

/-- GET `/gateways/hierarchy` (`get_gateway_hierarchy`): the root nodes are
exactly the active gateways whose `parent_gateway_id` is falsy. -/
def get_gateway_hierarchy (gateways : List Gateway) : List GatewayHierarchyNode :=
  let actives := gateways.filter (fun g => g.is_active)
  (actives.filter (fun g => !(truthy_str g.parent_gateway_id))).map
    (build_node actives actives.length)

/-- Occurrence of a gateway id anywhere in a hierarchy tree. -/
inductive InForest (gid : String) : GatewayHierarchyNode → Prop
  | here {n : GatewayHierarchyNode} : n.gateway_id = gid → InForest gid n
  | child {n c : GatewayHierarchyNode} : c ∈ n.children → InForest gid c → InForest gid n

theorem build_node_gateway_id (actives : List Gateway) (fuel : Nat) (g : Gateway) :
    (build_node actives fuel g).gateway_id = g.gateway_id := by
  cases fuel <;> rfl

/-- C9 counterexample: an active gateway whose `parent_gateway_id` refers to
no gateway at all is dropped from the returned forest entirely — it does not
appear as a root, so it appears zero times rather than exactly once. -/
theorem gateway_hierarchy_counterexample :
    (⟨"A", "na", .SITE, some "X", .ONLINE, true⟩ : Gateway).is_active = true ∧
    get_gateway_hierarchy [⟨"A", "na", .SITE, some "X", .ONLINE, true⟩] = [] :=
  ⟨rfl, rfl⟩

/-- A gateway whose parent chain leads out of the active set never occurs in
any tree built over the active set. -/
theorem not_in_forest_of_missing_parent (actives : List Gateway) (g : Gateway) (p : String)
    (hnodup : (actives.map (fun x => x.gateway_id)).Nodup)
    (hg : g ∈ actives) (hgp : g.parent_gateway_id = some p)
    (hmiss : p ∉ actives.map (fun x => x.gateway_id)) :
    ∀ (fuel : Nat) (x : Gateway), x ∈ actives → x ≠ g →
      ¬ InForest g.gateway_id (build_node actives fuel x) := by
  intro fuel
  induction fuel with
  | zero =>
    intro x hx hxg hin
    cases hin with
    | here h =>
      exact hxg (List.inj_on_of_nodup_map hnodup hx hg (by simpa [build_node] using h))
    | child hc _ =>
      simp [build_node] at hc
  | succ fuel ih =>
    intro x hx hxg hin
    cases hin with
    | here h =>
      exact hxg (List.inj_on_of_nodup_map hnodup hx hg (by simpa [build_node] using h))
    | child hc hin' =>
      simp only [build_node] at hc
      obtain ⟨y, hy, rfl⟩ := List.mem_map.mp hc
      have hymem : y ∈ actives := (List.mem_filter.mp hy).1
      have hyne : y ≠ g := by
        intro he
        subst he
        have hcond := (List.mem_filter.mp hy).2
        rw [hgp] at hcond
        simp only [Bool.and_eq_true, beq_iff_eq] at hcond
        exact hmiss (hcond.2 ▸ List.mem_map_of_mem (fun x => x.gateway_id) hx)
      exact ih y hymem hyne hin'

/-- C9 amended: the hierarchy query returns as roots exactly the active
gateways with a falsy parent id; an active gateway whose parent is (the
non-empty id of) an active gateway appears among the children of its
parent's node; and an active gateway whose parent id names no active
gateway appears nowhere in the returned forest. -/
theorem gateway_hierarchy_spec :
    (∀ gateways : List Gateway,
      (get_gateway_hierarchy gateways).map (fun n => n.gateway_id) =
        ((gateways.filter (fun g => g.is_active)).filter
          (fun g => !(truthy_str g.parent_gateway_id))).map (fun g => g.gateway_id)) ∧
    (∀ (gateways : List Gateway) (g p : Gateway) (fuel : Nat),
      g ∈ gateways.filter (fun x => x.is_active) →
      g.parent_gateway_id = some p.gateway_id → p.gateway_id ≠ "" →
      ∃ c ∈ (build_node (gateways.filter (fun x => x.is_active)) (fuel + 1) p).children,
        c.gateway_id = g.gateway_id) ∧
    (∀ (gateways : List Gateway) (g : Gateway) (p : String),
      ((gateways.filter (fun x => x.is_active)).map (fun x => x.gateway_id)).Nodup →
      g ∈ gateways.filter (fun x => x.is_active) →
      g.parent_gateway_id = some p → p ≠ "" →
      p ∉ (gateways.filter (fun x => x.is_active)).map (fun x => x.gateway_id) →
      ∀ n ∈ get_gateway_hierarchy gateways, ¬ InForest g.gateway_id n) := by
  refine ⟨?_, ?_, ?_⟩
  · intro gateways
    simp only [get_gateway_hierarchy, List.map_map]
    exact List.map_congr_left (fun g _ => build_node_gateway_id _ _ g)
  · intro gateways g p fuel hg hgp hne
    refine ⟨build_node (gateways.filter (fun x => x.is_active)) fuel g, ?_,
      build_node_gateway_id _ _ g⟩
    simp only [build_node]
    apply List.mem_map_of_mem
    refine List.mem_filter.mpr ⟨hg, ?_⟩
    rw [hgp]
    simp [hne]
  · intro gateways g p hnodup hg hgp hpne hmiss n hn
    simp only [get_gateway_hierarchy, List.mem_map] at hn
    obtain ⟨r, hr, rfl⟩ := hn
    have hrmem : r ∈ gateways.filter (fun x => x.is_active) := (List.mem_filter.mp hr).1
    have hrne : r ≠ g := by
      intro he
      subst he
      have hcond := (List.mem_filter.mp hr).2
      rw [hgp] at hcond
      simp [truthy_str] at hcond
      exact hpne hcond
    exact not_in_forest_of_missing_parent _ g p hnodup hg hgp hmiss _ r hrmem hrne

/-- Witness for C9's amended theorem: a child under an active root appears
among the root node's children, and the dangling-parent gateway of the
counterexample appears in no tree of the returned forest. -/
theorem gateway_hierarchy_spec_witness :
    (∃ c ∈ (build_node ([(⟨"R", "nr", .SITE, none, .ONLINE, true⟩ : Gateway),
        ⟨"C", "nc", .SITE, some "R", .ONLINE, true⟩].filter (fun x => x.is_active)) (0 + 1)
        ⟨"R", "nr", .SITE, none, .ONLINE, true⟩).children,
      c.gateway_id = (⟨"C", "nc", .SITE, some "R", .ONLINE, true⟩ : Gateway).gateway_id) ∧
    (∀ n ∈ get_gateway_hierarchy [⟨"A", "na", .SITE, some "X", .ONLINE, true⟩],
      ¬ InForest (⟨"A", "na", .SITE, some "X", .ONLINE, true⟩ : Gateway).gateway_id n) :=
  ⟨gateway_hierarchy_spec.2.1
      [⟨"R", "nr", .SITE, none, .ONLINE, true⟩, ⟨"C", "nc", .SITE, some "R", .ONLINE, true⟩]
      ⟨"C", "nc", .SITE, some "R", .ONLINE, true⟩ ⟨"R", "nr", .SITE, none, .ONLINE, true⟩ 0
      (by decide) rfl (by decide),
   gateway_hierarchy_spec.2.2 [⟨"A", "na", .SITE, some "X", .ONLINE, true⟩]
      ⟨"A", "na", .SITE, some "X", .ONLINE, true⟩ "X"
      (by decide) (by decide) rfl (by decide) (by decide)⟩

end AndroidLab
